import Mathlib

/-!
Verification of the Red Energy Home Assistant integration
(`custom_components/red_energy`) against its natural-language specification.

The Python source is shallowly embedded: JSON/Python values become the
inductive `PyVal`, Python floats become `ℚ`, fallible code returns `Option`
or `Except`, and the mutable token state of the API client becomes an
explicit `AuthState` threaded through the functions that mutate it.
Network responses are passed in as explicit data so that each code path is
a pure function of its inputs.

Rational arithmetic is performed through `mkRat`-based wrappers (`ratAdd`,
`ratMul`, ...) because the primitive `Rat` operations are `irreducible` in
this toolchain and would block kernel evaluation of concrete inputs; the
wrappers are proved equal to the standard operations below.
-/

namespace RedEnergy

/-- Kernel-computable addition on `ℚ` (proved equal to `+` in `ratAdd_eq`). -/
def ratAdd (a b : ℚ) : ℚ := mkRat (a.num * b.den + b.num * a.den) (a.den * b.den)

/-- Kernel-computable negation on `ℚ`. -/
def ratNeg (a : ℚ) : ℚ := mkRat (-a.num) a.den

/-- Kernel-computable subtraction on `ℚ`. -/
def ratSub (a b : ℚ) : ℚ := ratAdd a (ratNeg b)

/-- Kernel-computable multiplication on `ℚ`. -/
def ratMul (a b : ℚ) : ℚ := mkRat (a.num * b.num) (a.den * b.den)

/-- Kernel-computable absolute value on `ℚ` (Python `abs`). -/
def ratAbs (a : ℚ) : ℚ := if a < 0 then ratNeg a else a

/-- Embedding of Python/JSON values as they flow through the integration:
`None`, booleans, numbers (Python `int`/`float`, abstracted to `ℚ`),
strings, lists and string-keyed dicts (assoc lists; Python dict keys are
unique, so first-match lookup agrees with dict lookup). -/
inductive PyVal : Type where
  | none : PyVal
  | bool (b : Bool) : PyVal
  | num (q : ℚ) : PyVal
  | str (s : String) : PyVal
  | list (xs : List PyVal) : PyVal
  | dict (kvs : List (String × PyVal)) : PyVal

/-- A Python dict body: assoc list of string keys to values. -/
abbrev PyDict := List (String × PyVal)

/-- Dict subscript and bare `d.get(k)`: first binding of `k`. -/
def pyGet (kvs : PyDict) (k : String) : Option PyVal :=
  List.lookup k kvs

/-- Dict access `d.get(k, default)`. -/
def pyGetD (kvs : PyDict) (k : String) (d : PyVal) : PyVal :=
  (pyGet kvs k).getD d

/-- Membership test `k in d`. -/
def pyHasKey (kvs : PyDict) (k : String) : Bool :=
  (pyGet kvs k).isSome

/-- Assignment of `v` to key `k`: overwrite in place when the key exists, else append
(Python dicts keep the original insertion position on overwrite). -/
def pyDictSet (kvs : PyDict) (k : String) (v : PyVal) : PyDict :=
  if (pyGet kvs k).isSome then
    kvs.map (fun p => if p.1 = k then (k, v) else p)
  else
    kvs ++ [(k, v)]

/-- Python truthiness of a value (`bool(v)`): `None`, `False`, zero, the
empty string, the empty list and the empty dict are falsy. -/
def pyTruthy : PyVal → Bool
  | .none => false
  | .bool b => b
  | .num q => q != 0
  | .str s => s != ""
  | .list xs => !xs.isEmpty
  | .dict kvs => !kvs.isEmpty

/-- Whether a value is a dict (`isinstance(v, dict)`). -/
def isDict : PyVal → Bool
  | .dict _ => true
  | _ => false

/-- Split a character list at every occurrence of `c`
(the string-level `splitOn` does not kernel-reduce, so work on `List Char`). -/
def splitOnChar (c : Char) : List Char → List (List Char)
  | [] => [[]]
  | x :: xs =>
    if x = c then [] :: splitOnChar c xs
    else
      match splitOnChar c xs with
      | [] => [[x]]
      | g :: gs => (x :: g) :: gs

/-- Decimal digits as a natural number (assumes all characters are digits). -/
def natOfDigits (cs : List Char) : ℕ :=
  cs.foldl (fun n c => 10 * n + (c.toNat - 48)) 0

/-- Plain decimal forms accepted by Python `float(str)`: optional sign,
digits, optional fractional part (`"1"`, `"-2.5"`, `".5"`, `"5."`).
Exponent, `inf`/`nan` and surrounding-whitespace forms of `float` are not
modelled; no verified claim exercises them. -/
def parseDecimal (s : String) : Option ℚ :=
  let cs := s.data
  let (neg, body) : Bool × List Char :=
    match cs with
    | '-' :: rest => (true, rest)
    | '+' :: rest => (false, rest)
    | _ => (false, cs)
  let signed : ℚ → ℚ := fun q => if neg then ratNeg q else q
  match splitOnChar '.' body with
  | [i] =>
      if i ≠ [] ∧ i.all Char.isDigit then some (signed (natOfDigits i)) else Option.none
  | [i, f] =>
      if (i ≠ [] ∨ f ≠ []) ∧ i.all Char.isDigit ∧ f.all Char.isDigit then
        some (signed (ratAdd (natOfDigits i) (mkRat (natOfDigits f) (10 ^ f.length))))
      else Option.none
  | _ => Option.none

/-- Python `float(v)` coercion: numbers pass through, booleans are 0/1,
decimal strings parse; `None`, lists and dicts raise `TypeError`
(modelled as `none`). -/
def floatOf : PyVal → Option ℚ
  | .num q => some q
  | .bool b => some (if b then 1 else 0)
  | .str s => parseDecimal s
  | _ => Option.none

/-- Python `str.upper()` (ASCII; the tariff tags are ASCII). -/
def strUpper (s : String) : String :=
  ⟨s.data.map Char.toUpper⟩

/-- Python `str(v)`. Only the string case is exercised by the verified
claims; the representations of the other cases are abstracted. -/
def pyStrOf : PyVal → String
  | .str s => s
  | .none => "None"
  | .bool true => "True"
  | .bool false => "False"
  | .num _ => "<num>"
  | .list _ => "<list>"
  | .dict _ => "<dict>"

/-- Floor of a rational, computed directly on numerator and denominator. -/
def ratFloor (q : ℚ) : ℤ :=
  q.num.fdiv q.den

/-- Round to the nearest integer, ties to even — the rounding of Python's
builtin `round`. -/
def roundHalfEven (q : ℚ) : ℤ :=
  let f : ℤ := ratFloor q
  let r : ℚ := ratSub q (mkRat f 1)
  if r < mkRat 1 2 then f
  else if mkRat 1 2 < r then f + 1
  else if f % 2 = 0 then f else f + 1

/-- Python `round(q, n)` (on the exact rational abstraction of the float). -/
def pyRound (n : ℕ) (q : ℚ) : ℚ :=
  mkRat (roundHalfEven (ratMul q (10 ^ n))) (10 ^ n)

/-!
## The usage response normalizer (`api.py`, `_normalize_usage_entry` /
`_empty_entry` / `_transform_usage_data`)
-/

/-- The daily entry dict produced by `_normalize_usage_entry`, as a
structure (one field per key of the returned dict literal, in source
order). `max_demand_time` is `none` for Python `None`. -/
structure DailyEntry : Type where
  date : String
  usage : ℚ
  cost : ℚ
  unit : String
  import_usage : ℚ
  export_usage : ℚ
  import_cost : ℚ
  export_credit : ℚ
  net_cost : ℚ
  peak_import_usage : ℚ
  offpeak_import_usage : ℚ
  shoulder_import_usage : ℚ
  peak_export_usage : ℚ
  offpeak_export_usage : ℚ
  shoulder_export_usage : ℚ
  max_demand_kw : ℚ
  max_demand_time : Option PyVal
  carbon_emission_tonne : ℚ

/-- The zero-valued entry returned by `_empty_entry`. -/
def emptyEntry : DailyEntry where
  date := ""
  usage := 0
  cost := 0
  unit := "kWh"
  import_usage := 0
  export_usage := 0
  import_cost := 0
  export_credit := 0
  net_cost := 0
  peak_import_usage := 0
  offpeak_import_usage := 0
  shoulder_import_usage := 0
  peak_export_usage := 0
  offpeak_export_usage := 0
  shoulder_export_usage := 0
  max_demand_kw := 0
  max_demand_time := Option.none
  carbon_emission_tonne := 0

/-- The accumulators of the half-hour interval loop of
`_normalize_usage_entry`. -/
structure IntervalAcc : Type where
  import_usage : ℚ
  export_usage : ℚ
  peak_import : ℚ
  offpeak_import : ℚ
  shoulder_import : ℚ
  peak_export : ℚ
  offpeak_export : ℚ
  shoulder_export : ℚ
  max_demand_kw : ℚ
  max_demand_time : Option PyVal

/-- All accumulators initialized to zero (`max_demand_time = None`). -/
def initAcc : IntervalAcc where
  import_usage := 0
  export_usage := 0
  peak_import := 0
  offpeak_import := 0
  shoulder_import := 0
  peak_export := 0
  offpeak_export := 0
  shoulder_export := 0
  max_demand_kw := 0
  max_demand_time := Option.none

/-- The tariff-period tag of an interval dict:
`interval.get("primaryConsumptionTariffComponent", "").upper()`.
Calling `.upper()` on a non-string raises (`none`). -/
def upperTag (kvs : PyDict) : Option String :=
  match pyGetD kvs "primaryConsumptionTariffComponent" (.str "") with
  | .str s => some (strUpper s)
  | _ => Option.none

/-- One iteration of the `for interval in half_hours` loop of
`_normalize_usage_entry`: non-dict intervals are skipped (`continue`);
for dict intervals, consumption/generation are `float`-coerced, totals and
the matching tariff-period accumulators are advanced, and `demandDetail`
(when a dict) can raise the running max demand. `none` models an
uncaught exception (`TypeError`/`ValueError`/`AttributeError`). -/
def stepInterval (acc : IntervalAcc) (iv : PyVal) : Option IntervalAcc :=
  match iv with
  | .dict kvs =>
    match floatOf (pyGetD kvs "consumptionKwh" (.num 0)),
          floatOf (pyGetD kvs "generationKwh" (.num 0)),
          upperTag kvs with
    | some c, some g, some period =>
      let acc1 : IntervalAcc :=
        { acc with
          import_usage := ratAdd acc.import_usage c
          export_usage := ratAdd acc.export_usage g }
      let acc2 : IntervalAcc :=
        if period = "PEAK" then
          { acc1 with peak_import := ratAdd acc1.peak_import c
                      peak_export := ratAdd acc1.peak_export g }
        else if period = "OFFPEAK" then
          { acc1 with offpeak_import := ratAdd acc1.offpeak_import c
                      offpeak_export := ratAdd acc1.offpeak_export g }
        else if period = "SHOULDER" then
          { acc1 with shoulder_import := ratAdd acc1.shoulder_import c
                      shoulder_export := ratAdd acc1.shoulder_export g }
        else acc1
      match pyGetD kvs "demandDetail" (.dict []) with
      | .dict dkvs =>
        match floatOf (pyGetD dkvs "demandKw" (.num 0)) with
        | some dk =>
            some (if acc2.max_demand_kw < dk then
                    { acc2 with max_demand_kw := dk
                                max_demand_time := pyGet kvs "intervalStart" }
                  else acc2)
        | Option.none => Option.none
      | _ => some acc2
    | _, _, _ => Option.none
  | _ => some acc

/-- The half-hour loop of `_normalize_usage_entry` over a list of
intervals. -/
def processIntervals : IntervalAcc → List PyVal → Option IntervalAcc
  | acc, [] => some acc
  | acc, iv :: rest =>
    match stepInterval acc iv with
    | some acc' => processIntervals acc' rest
    | Option.none => Option.none

/-- The interval-loop phase of `_normalize_usage_entry`: run the loop
when `halfHours` is a list, leave the zero accumulators otherwise. -/
def halfHoursAcc (kvs : PyDict) : Option IntervalAcc :=
  match pyGetD kvs "halfHours" (.list []) with
  | .list hs => processIntervals initAcc hs
  | _ => some initAcc

/-- The daily-summary max-demand override of `_normalize_usage_entry`:
when `maxDemandDetail` is a non-empty dict, a strictly larger
`demandKw` replaces the interval-level maximum (and `intervalStart` is
taken from the summary). -/
def dailyMaxDemand (kvs : PyDict) (acc : IntervalAcc) : Option (ℚ × Option PyVal) :=
  match pyGetD kvs "maxDemandDetail" (.dict []) with
  | .dict dkvs =>
    if dkvs.isEmpty then some (acc.max_demand_kw, acc.max_demand_time)
    else
      match floatOf (pyGetD dkvs "demandKw" (.num 0)) with
      | some dailyMax =>
          some (if acc.max_demand_kw < dailyMax then
                  (dailyMax, pyGet dkvs "intervalStart")
                else (acc.max_demand_kw, acc.max_demand_time))
      | Option.none => Option.none
  | _ => some (acc.max_demand_kw, acc.max_demand_time)

/-- The daily entry built from the loop accumulators, the summary costs
and carbon figure, and the final max-demand data — the dict literal
returned by `_normalize_usage_entry`. -/
def buildEntry (dateValue : PyVal) (acc : IntervalAcc)
    (importCost generationDollar carbonEmission : ℚ)
    (maxDemandKw : ℚ) (maxDemandTime : Option PyVal) : DailyEntry :=
  let exportCredit := ratAbs generationDollar
  let netCost := ratSub importCost exportCredit
  { date := pyStrOf dateValue
    usage := pyRound 3 (ratSub acc.import_usage acc.export_usage)
    cost := pyRound 2 netCost
    unit := "kWh"
    import_usage := pyRound 3 acc.import_usage
    export_usage := pyRound 3 acc.export_usage
    import_cost := pyRound 2 importCost
    export_credit := pyRound 2 exportCredit
    net_cost := pyRound 2 netCost
    peak_import_usage := pyRound 3 acc.peak_import
    offpeak_import_usage := pyRound 3 acc.offpeak_import
    shoulder_import_usage := pyRound 3 acc.shoulder_import
    peak_export_usage := pyRound 3 acc.peak_export
    offpeak_export_usage := pyRound 3 acc.offpeak_export
    shoulder_export_usage := pyRound 3 acc.shoulder_export
    max_demand_kw := pyRound 3 maxDemandKw
    max_demand_time := maxDemandTime
    carbon_emission_tonne := pyRound 6 carbonEmission }

/-- Embedding of `_normalize_usage_entry`: normalize a single usage entry
with import/export totals, tariff-period breakdowns, max-demand tracking
and daily-summary costs/carbon. Non-dict entries yield `_empty_entry()`;
`none` models an uncaught exception from a malformed field. -/
def normalizeUsageEntry (entry : PyVal) : Option DailyEntry :=
  match entry with
  | .dict kvs =>
    match halfHoursAcc kvs with
    | Option.none => Option.none
    | some acc =>
      match floatOf (pyGetD kvs "consumptionDollar" (.num 0)),
            floatOf (pyGetD kvs "generationDollar" (.num 0)),
            floatOf (pyGetD kvs "carbonEmissionTonne" (.num 0)) with
      | some importCost, some generationDollar, some carbonEmission =>
        match dailyMaxDemand kvs acc with
        | Option.none => Option.none
        | some (maxDemandKw, maxDemandTime) =>
          some (buildEntry (pyGetD kvs "usageDate" (.str "")) acc
                  importCost generationDollar carbonEmission maxDemandKw maxDemandTime)
      | _, _, _ => Option.none
  | _ => some emptyEntry

/-- The daily-entry structure rendered back as the dict
`_normalize_usage_entry` returns (keys in source order). -/
def entryToPy (e : DailyEntry) : PyVal :=
  .dict
    [ ("date", .str e.date)
    , ("usage", .num e.usage)
    , ("cost", .num e.cost)
    , ("unit", .str e.unit)
    , ("import_usage", .num e.import_usage)
    , ("export_usage", .num e.export_usage)
    , ("import_cost", .num e.import_cost)
    , ("export_credit", .num e.export_credit)
    , ("net_cost", .num e.net_cost)
    , ("peak_import_usage", .num e.peak_import_usage)
    , ("offpeak_import_usage", .num e.offpeak_import_usage)
    , ("shoulder_import_usage", .num e.shoulder_import_usage)
    , ("peak_export_usage", .num e.peak_export_usage)
    , ("offpeak_export_usage", .num e.offpeak_export_usage)
    , ("shoulder_export_usage", .num e.shoulder_export_usage)
    , ("max_demand_kw", .num e.max_demand_kw)
    , ("max_demand_time", e.max_demand_time.getD .none)
    , ("carbon_emission_tonne", .num e.carbon_emission_tonne) ]

/-- The candidate keys probed by case 4 of `_transform_usage_data`, in
source order. -/
def probeKeys : List String :=
  ["usage_data", "usageData", "data", "intervals", "usage", "entries"]

/-- The Python `or`-chain
`raw.get("usage_data") or raw.get("usageData") or ... or []`: the first
truthy value wins; when every operand is falsy the final `[]` is the
result. An absent key contributes `None` (falsy). -/
def orChain (kvs : PyDict) : List String → PyVal
  | [] => .list []
  | k :: rest =>
    let v := pyGetD kvs k .none
    if pyTruthy v then v else orChain kvs rest

/-- The canonical usage document
`{"consumer_number": ..., "from_date": ..., "to_date": ..., "usage_data": ...}`
built by `_transform_usage_data` (the date arguments are embedded
already formatted, as the `strftime` output strings). -/
def mkDoc (c f t : String) (entries : List DailyEntry) : PyVal :=
  .dict
    [ ("consumer_number", .str c)
    , ("from_date", .str f)
    , ("to_date", .str t)
    , ("usage_data", .list (entries.map entryToPy)) ]

/-- The list comprehension
`[self._normalize_usage_entry(entry) for entry in entries]`
(`none` when normalizing some element raises). -/
def normalizeList : List PyVal → Option (List DailyEntry)
  | [] => some []
  | e :: rest =>
    match normalizeUsageEntry e, normalizeList rest with
    | some d, some ds => some (d :: ds)
    | _, _ => Option.none

/-- Embedding of `_transform_usage_data`, dispatching on the shape of the
raw response: `None` → empty document; dict already carrying both
`consumer_number` and `usage_data` keys → returned unchanged; list →
normalize elements; other dict → probe the alias keys with the `or`-chain
and either normalize the found list or wrap the whole dict as a single
entry; any other type → empty document. `none` models an uncaught
exception while normalizing entries. -/
def transformUsageData (rawData : PyVal) (consumerNumber fromDateStr toDateStr : String) :
    Option PyVal :=
  match rawData with
  | .none => some (mkDoc consumerNumber fromDateStr toDateStr [])
  | .list entries =>
      (normalizeList entries).map (mkDoc consumerNumber fromDateStr toDateStr)
  | .dict kvs =>
      if pyHasKey kvs "consumer_number" ∧ pyHasKey kvs "usage_data" then
        some (.dict kvs)
      else
        match orChain kvs probeKeys with
        | .list usageEntries =>
            (normalizeList usageEntries).map (mkDoc consumerNumber fromDateStr toDateStr)
        | _ =>
            (normalizeUsageEntry (.dict kvs)).map
              (fun e => mkDoc consumerNumber fromDateStr toDateStr [e])
  | _ => some (mkDoc consumerNumber fromDateStr toDateStr [])

/-!
## Specification-side aggregation functions (for the claims about
`_normalize_usage_entry`)
-/

/-- Consumption reading of an interval, as the loop would coerce it
(0 for non-dict intervals and unreadable values; under a success
hypothesis the fallback is never taken). -/
def consumptionOf (iv : PyVal) : ℚ :=
  match iv with
  | .dict kvs => (floatOf (pyGetD kvs "consumptionKwh" (.num 0))).getD 0
  | _ => 0

/-- Generation reading of an interval. -/
def generationOf (iv : PyVal) : ℚ :=
  match iv with
  | .dict kvs => (floatOf (pyGetD kvs "generationKwh" (.num 0))).getD 0
  | _ => 0

/-- Upper-cased tariff tag of an interval; non-dict intervals and
non-string tags read as `""`, which matches no tariff period. -/
def tagOf (iv : PyVal) : String :=
  match iv with
  | .dict kvs => (upperTag kvs).getD ""
  | _ => ""

/-- Sum of interval consumption over a half-hour list. -/
def importSum (hs : List PyVal) : ℚ :=
  (hs.map consumptionOf).sum

/-- Sum of interval generation over a half-hour list. -/
def exportSum (hs : List PyVal) : ℚ :=
  (hs.map generationOf).sum

/-- Sum of interval consumption over the intervals whose upper-cased
tariff tag equals `p`. -/
def periodImportSum (p : String) (hs : List PyVal) : ℚ :=
  ((hs.filter (fun iv => tagOf iv = p)).map consumptionOf).sum

/-- Sum of interval generation over the intervals whose upper-cased
tariff tag equals `p`. -/
def periodExportSum (p : String) (hs : List PyVal) : ℚ :=
  ((hs.filter (fun iv => tagOf iv = p)).map generationOf).sum

/-!
## Well-formedness predicates (which inputs normalize without raising)
-/

/-- Whether `float(v)` succeeds. -/
def floatOk (v : PyVal) : Bool :=
  (floatOf v).isSome

/-- Whether processing one interval cannot raise: non-dict intervals are
always fine (skipped); dict intervals need coercible consumption and
generation readings, a string (or absent) tariff tag, and a coercible
`demandDetail.demandKw` when `demandDetail` is a dict. -/
def intervalOk (iv : PyVal) : Bool :=
  match iv with
  | .dict kvs =>
    floatOk (pyGetD kvs "consumptionKwh" (.num 0)) &&
    floatOk (pyGetD kvs "generationKwh" (.num 0)) &&
    (upperTag kvs).isSome &&
    (match pyGetD kvs "demandDetail" (.dict []) with
     | .dict dkvs => floatOk (pyGetD dkvs "demandKw" (.num 0))
     | _ => true)
  | _ => true

/-- Whether the half-hour loop of an entry cannot raise. -/
def halfHoursOk (kvs : PyDict) : Bool :=
  match pyGetD kvs "halfHours" (.list []) with
  | .list hs => hs.all intervalOk
  | _ => true

/-- Whether the daily-summary max-demand override cannot raise. -/
def maxDemandOk (kvs : PyDict) : Bool :=
  match pyGetD kvs "maxDemandDetail" (.dict []) with
  | .dict dkvs => dkvs.isEmpty || floatOk (pyGetD dkvs "demandKw" (.num 0))
  | _ => true

/-- Whether normalizing one entry cannot raise: non-dict entries are fine
(they become the empty entry); dict entries need well-formed intervals
and coercible daily-summary numeric fields. -/
def entryOk (entry : PyVal) : Bool :=
  match entry with
  | .dict kvs =>
    halfHoursOk kvs &&
    floatOk (pyGetD kvs "consumptionDollar" (.num 0)) &&
    floatOk (pyGetD kvs "generationDollar" (.num 0)) &&
    floatOk (pyGetD kvs "carbonEmissionTonne" (.num 0)) &&
    maxDemandOk kvs
  | _ => true

/-- Whether transforming a whole raw response cannot raise, following the
dispatch of `_transform_usage_data`. -/
def rawOk (rawData : PyVal) : Bool :=
  match rawData with
  | .list entries => entries.all entryOk
  | .dict kvs =>
    pyHasKey kvs "consumer_number" && pyHasKey kvs "usage_data" ||
    (match orChain kvs probeKeys with
     | .list usageEntries => usageEntries.all entryOk
     | _ => entryOk (.dict kvs))
  | _ => true

/-!
## PKCE (`api.py`, `_generate_code_verifier` / `_generate_code_challenge`)

`hashlib.sha256` and `base64.urlsafe_b64encode` are Python standard
library functions; they are embedded here as the standard SHA-256
algorithm (FIPS 180-4) over byte lists and RFC 4648 URL-safe base64.
-/

/-- Addition modulo `2^32`. -/
def add32 (a b : ℕ) : ℕ := (a + b) % 4294967296

/-- Right rotation of a 32-bit word. -/
def rotr32 (x n : ℕ) : ℕ := ((x >>> n) ||| (x <<< (32 - n))) % 4294967296

/-- Bitwise complement of a 32-bit word. -/
def not32 (x : ℕ) : ℕ := 4294967295 ^^^ x

/-- SHA-256 `Ch(x, y, z)`. -/
def sha2Ch (x y z : ℕ) : ℕ := (x &&& y) ^^^ (not32 x &&& z)

/-- SHA-256 `Maj(x, y, z)`. -/
def sha2Maj (x y z : ℕ) : ℕ := (x &&& y) ^^^ (x &&& z) ^^^ (y &&& z)

/-- SHA-256 `Σ0`. -/
def bigSigma0 (x : ℕ) : ℕ := rotr32 x 2 ^^^ rotr32 x 13 ^^^ rotr32 x 22

/-- SHA-256 `Σ1`. -/
def bigSigma1 (x : ℕ) : ℕ := rotr32 x 6 ^^^ rotr32 x 11 ^^^ rotr32 x 25

/-- SHA-256 `σ0`. -/
def smallSigma0 (x : ℕ) : ℕ := rotr32 x 7 ^^^ rotr32 x 18 ^^^ (x >>> 3)

/-- SHA-256 `σ1`. -/
def smallSigma1 (x : ℕ) : ℕ := rotr32 x 17 ^^^ rotr32 x 19 ^^^ (x >>> 10)

/-- The 64 SHA-256 round constants. -/
def sha2K : List ℕ :=
  [1116352408, 1899447441, 3049323471, 3921009573, 961987163, 1508970993,
   2453635748, 2870763221, 3624381080, 310598401, 607225278, 1426881987,
   1925078388, 2162078206, 2614888103, 3248222580, 3835390401, 4022224774,
   264347078, 604807628, 770255983, 1249150122, 1555081692, 1996064986,
   2554220882, 2821834349, 2952996808, 3210313671, 3336571891, 3584528711,
   113926993, 338241895, 666307205, 773529912, 1294757372, 1396182291,
   1695183700, 1986661051, 2177026350, 2456956037, 2730485921, 2820302411,
   3259730800, 3345764771, 3516065817, 3600352804, 4094571909, 275423344,
   430227734, 506948616, 659060556, 883997877, 958139571, 1322822218,
   1537002063, 1747873779, 1955562222, 2024104815, 2227730452, 2361852424,
   2428436474, 2756734187, 3204031479, 3329325298]

/-- The SHA-256 initial hash value. -/
def sha2H0 : List ℕ :=
  [1779033703, 3144134277, 1013904242, 2773480762, 1359893119, 2600822924,
   528734635, 1541459225]

/-- Big-endian bytes of a natural number, fixed width. -/
def natToBytesBE (n count : ℕ) : List ℕ :=
  (List.range count).map (fun i => (n >>> (8 * (count - 1 - i))) % 256)

/-- Big-endian 32-bit words from a byte list. -/
def bytesToWordsBE : List ℕ → List ℕ
  | b0 :: b1 :: b2 :: b3 :: rest =>
      ((b0 <<< 24) ||| (b1 <<< 16) ||| (b2 <<< 8) ||| b3) :: bytesToWordsBE rest
  | _ => []

/-- Indexing into a word list (0 when out of range; never taken here). -/
def wAt (w : List ℕ) (i : ℕ) : ℕ := w.getD i 0

/-- Extend 16 message words to the 64-entry SHA-256 message schedule. -/
def buildSchedule (w16 : List ℕ) : List ℕ :=
  (List.range 48).foldl
    (fun w _ =>
      let i := w.length
      w ++ [add32 (add32 (smallSigma1 (wAt w (i - 2))) (wAt w (i - 7)))
                  (add32 (smallSigma0 (wAt w (i - 15))) (wAt w (i - 16)))])
    w16

/-- One SHA-256 compression round over the working variables
`[a, b, c, d, e, f, g, h]`. -/
def sha2Round (w : List ℕ) (st : List ℕ) (i : ℕ) : List ℕ :=
  match st with
  | [a, b, c, d, e, f, g, h] =>
    let t1 := add32 (add32 (add32 h (bigSigma1 e)) (add32 (sha2Ch e f g) (wAt sha2K i)))
                    (wAt w i)
    let t2 := add32 (bigSigma0 a) (sha2Maj a b c)
    [add32 t1 t2, a, b, c, add32 d t1, e, f, g]
  | _ => st

/-- Compress one 64-byte block into the running hash value. -/
def compressBlock (h : List ℕ) (block : List ℕ) : List ℕ :=
  let w := buildSchedule (bytesToWordsBE block)
  let final := (List.range 64).foldl (sha2Round w) h
  List.zipWith add32 h final

/-- Split a byte list into 64-byte chunks (structural recursion on a fuel
bound, so that kernel reduction goes through; each step consumes at least
one byte, so `fuel = length` is enough). -/
def chunks64Aux : ℕ → List ℕ → List (List ℕ)
  | 0, _ => []
  | _ + 1, [] => []
  | fuel + 1, b :: bs => ((b :: bs).take 64) :: chunks64Aux fuel ((b :: bs).drop 64)

/-- Split a byte list into 64-byte chunks. -/
def chunks64 (bs : List ℕ) : List (List ℕ) :=
  chunks64Aux bs.length bs

/-- SHA-256 padding: `0x80`, zeros to 56 mod 64, 8-byte big-endian bit
length. -/
def sha2Pad (msg : List ℕ) : List ℕ :=
  msg ++ 128 :: List.replicate ((119 - msg.length % 64) % 64) 0 ++
    natToBytesBE (8 * msg.length) 8

/-- SHA-256 of a byte list (the embedding of `hashlib.sha256(...).digest()`). -/
def sha256 (msg : List ℕ) : List ℕ :=
  let hFinal := (chunks64 (sha2Pad msg)).foldl compressBlock sha2H0
  hFinal.foldr (fun w acc => natToBytesBE w 4 ++ acc) []

/-- The URL-safe base64 alphabet of `base64.urlsafe_b64encode`. -/
def b64urlAlphabet : List Char :=
  "ABCDEFGHIJKLMNOPQRSTUVWXYZabcdefghijklmnopqrstuvwxyz0123456789-_".data

/-- Character of a 6-bit group. -/
def b64CharAt (n : ℕ) : Char := b64urlAlphabet.getD n 'A'

/-- RFC 4648 URL-safe base64 encoding of a byte list, with padding. -/
def base64urlEncode : List ℕ → List Char
  | [] => []
  | [b0] =>
      [b64CharAt (b0 >>> 2), b64CharAt ((b0 <<< 4) &&& 63), '=', '=']
  | [b0, b1] =>
      [b64CharAt (b0 >>> 2), b64CharAt (((b0 <<< 4) ||| (b1 >>> 4)) &&& 63),
       b64CharAt ((b1 <<< 2) &&& 63), '=']
  | b0 :: b1 :: b2 :: rest =>
      b64CharAt (b0 >>> 2) :: b64CharAt (((b0 <<< 4) ||| (b1 >>> 4)) &&& 63) ::
      b64CharAt (((b1 <<< 2) ||| (b2 >>> 6)) &&& 63) :: b64CharAt (b2 &&& 63) ::
      base64urlEncode rest

/-- Strip trailing padding characters (Python `.rstrip("=")`). -/
def rstripEq (cs : List Char) : List Char :=
  (cs.reverse.dropWhile (fun c => c = '=')).reverse

/-- UTF-8 bytes of one character (the encoding used by `str.encode()`). -/
def utf8Char (c : Char) : List ℕ :=
  let n := c.toNat
  if n < 128 then [n]
  else if n < 2048 then [192 ||| (n >>> 6), 128 ||| (n &&& 63)]
  else if n < 65536 then
    [224 ||| (n >>> 12), 128 ||| ((n >>> 6) &&& 63), 128 ||| (n &&& 63)]
  else
    [240 ||| (n >>> 18), 128 ||| ((n >>> 12) &&& 63), 128 ||| ((n >>> 6) &&& 63),
     128 ||| (n &&& 63)]

/-- UTF-8 bytes of a string (`verifier.encode()`). -/
def utf8Bytes (s : String) : List ℕ :=
  (s.data.map utf8Char).flatten

/-- The alphabet of `_generate_code_verifier`:
`string.ascii_letters + string.digits + "-._~"`. -/
def codeVerifierAlphabet : List Char :=
  "abcdefghijklmnopqrstuvwxyzABCDEFGHIJKLMNOPQRSTUVWXYZ0123456789-._~".data

/-- Embedding of `_generate_code_verifier`: 48 characters drawn from the
alphabet; the randomness of `secrets.choice` is passed in as the function
`pick` giving the alphabet index chosen at each position. -/
def generateCodeVerifier (pick : ℕ → Fin codeVerifierAlphabet.length) : String :=
  ⟨(List.range 48).map (fun i => codeVerifierAlphabet.get (pick i))⟩

/-- Embedding of `_generate_code_challenge`: URL-safe base64 of the
SHA-256 digest of the verifier, padding stripped. -/
def generateCodeChallenge (verifier : String) : String :=
  ⟨rstripEq (base64urlEncode (sha256 (utf8Bytes verifier)))⟩

/-!
## Session state and token lifecycle (`api.py`, `RedEnergyAPI`)
-/

/-- The exception kinds surfaced by the embedded code paths. The first
three mirror the integration's own exception classes (`RedEnergyAuthError`
is a subclass of `RedEnergyAPIError`; `DataValidationError` comes from the
validation layer); the remaining kinds model Python/aiohttp exceptions. -/
inductive PyErr : Type where
  | redEnergyAuthError (msg : String) : PyErr
  | redEnergyAPIError (msg : String) : PyErr
  | dataValidationError (msg : String) : PyErr
  | httpStatusError (status : ℕ) : PyErr
  | typeError (msg : String) : PyErr
  | keyError (key : String) : PyErr
  | attributeError (msg : String) : PyErr
  | jsonError : PyErr
deriving DecidableEq

/-- The mutable token state of `RedEnergyAPI`: `_access_token`,
`_refresh_token` (arbitrary Python values, `None` before authentication)
and `_token_expires` (a `datetime` or `None`, abstracted to a rational
timestamp). -/
structure AuthState : Type where
  access_token : PyVal
  refresh_token : PyVal
  token_expires : Option ℚ

/-- The state at client construction: everything `None`. -/
def initialAuthState : AuthState where
  access_token := .none
  refresh_token := .none
  token_expires := Option.none

/-- Embedding of `_ensure_valid_token`: checks run against the state and
the current time; the network side of `_refresh_access_token` is passed
in as `refreshFn`. Returns the outcome, the state after the call, and how
many refresh network operations were performed. -/
def ensureValidToken (st : AuthState) (now : ℚ)
    (refreshFn : AuthState → Except PyErr AuthState) :
    Except PyErr Unit × AuthState × ℕ :=
  if !pyTruthy st.access_token then
    (.error (.redEnergyAuthError "No access token available"), st, 0)
  else
    match st.token_expires with
    | some expiresAt =>
      if expiresAt ≤ now then
        if pyTruthy st.refresh_token then
          match refreshFn st with
          | .ok st' => (.ok (), st', 1)
          | .error e => (.error e, st, 1)
        else
          (.error (.redEnergyAuthError "Token expired and no refresh token available"),
           st, 0)
      else (.ok (), st, 0)
    | Option.none => (.ok (), st, 0)

/-- A code-exchange HTTP response: status and JSON body (`none` when the
body is not valid JSON). -/
structure TokenExchangeResponse : Type where
  status : ℕ
  body : Option PyVal

/-- Coercion accepted by `timedelta(seconds=...)`: numbers and booleans
only (strings raise `TypeError`, unlike `float`). -/
def secondsOf : PyVal → Option ℚ
  | .num q => some q
  | .bool b => some (if b then 1 else 0)
  | _ => Option.none

/-- The body-parsing and assignment tail of `_exchange_code_for_tokens`
(everything after `raise_for_status()` did not raise): the body is
parsed and `access_token` is read with a subscript (KeyError when
absent), then the token fields are assigned in source order —
`_access_token`, then `_refresh_token` (via `.get`, `None` when absent),
then `_token_expires = now + expires_in` (default 3600), which raises
`TypeError` on a non-numeric `expires_in` after the first two
assignments have already happened. -/
def storeTokens (st : AuthState) (now : ℚ) (body : Option PyVal) :
    Except PyErr Unit × AuthState :=
  match body with
  | Option.none => (.error .jsonError, st)
  | some (.dict tokens) =>
    match pyGet tokens "access_token" with
    | Option.none => (.error (.keyError "access_token"), st)
    | some tok =>
      let st1 : AuthState :=
        { st with
          access_token := tok
          refresh_token := pyGetD tokens "refresh_token" .none }
      match secondsOf (pyGetD tokens "expires_in" (.num 3600)) with
      | some expiresIn => (.ok (), { st1 with token_expires := some (ratAdd now expiresIn) })
      | Option.none => (.error (.typeError "timedelta seconds"), st1)
  | some _ => (.error (.typeError "subscript"), st)

/-- Embedding of `_exchange_code_for_tokens`. The `status != 200` block
only logs (its own json/text failures are swallowed) and then calls
`response.raise_for_status()`, which raises exactly for statuses of 400
and above — so a 1xx/2xx/3xx status other than 200 falls through to the
parse-and-assign tail just like a 200 does. -/
def exchangeCodeForTokens (st : AuthState) (now : ℚ)
    (resp : TokenExchangeResponse) : Except PyErr Unit × AuthState :=
  if 400 ≤ resp.status then
    (.error (.httpStatusError resp.status), st)
  else
    storeTokens st now resp.body

/-- The `except` clauses of `authenticate`: a `RedEnergyAuthError` is
re-raised as-is, every other exception is wrapped into a
`RedEnergyAuthError` preserving nothing but the auth-error kind. -/
def wrapAuthError : PyErr → PyErr
  | .redEnergyAuthError m => .redEnergyAuthError m
  | _ => .redEnergyAuthError "Authentication failed due to unexpected error"

/-- The network outcomes that drive one `authenticate` call: results of
the pre-auth step, the discovery fetch (endpoints), the
authorization-code retrieval, and the raw code-exchange response. -/
structure AuthNetOutcomes : Type where
  sessionToken : Except PyErr (PyVal × PyVal)
  discovery : Except PyErr (String × String)
  authCode : Except PyErr String
  exchange : TokenExchangeResponse

/-- Embedding of `authenticate`: the five-step PKCE flow (PKCE generation
itself cannot fail), short-circuiting on the first failing step; only the
code-exchange step touches the token state. -/
def authenticate (st : AuthState) (now : ℚ) (net : AuthNetOutcomes) :
    Except PyErr Bool × AuthState :=
  match net.sessionToken with
  | .error e => (.error (wrapAuthError e), st)
  | .ok _ =>
    match net.discovery with
    | .error e => (.error (wrapAuthError e), st)
    | .ok _ =>
      match net.authCode with
      | .error e => (.error (wrapAuthError e), st)
      | .ok _ =>
        match exchangeCodeForTokens st now net.exchange with
        | (.ok _, st') => (.ok true, st')
        | (.error e, st') => (.error (wrapAuthError e), st')

/-!
## The pre-auth step (`api.py`, `_get_session_token`)
-/

/-- Python `try/except Exception` around a block whose result is an
`Except`: the handler receives every exception raised in the block —
including an exception the block itself constructed and raised on
purpose. -/
def pyTryExcept {α : Type} (tryResult : Except PyErr α)
    (handler : PyErr → Except PyErr α) : Except PyErr α :=
  match tryResult with
  | .ok a => .ok a
  | .error e => handler e

/-- An identity-provider password pre-auth HTTP response: status and JSON
body (`none` when the body is not valid JSON). -/
structure PreAuthResponse : Type where
  status : ℕ
  jsonBody : Option PyVal

/-- The non-200 branch of `_get_session_token`, with the source's
`try/except` structure kept intact: the `try` block parses the error
body, reads `errorSummary`/`errorCode` with defaults, and raises a
`RedEnergyAuthError` carrying them — but that raise happens inside the
`try`, so the block's own `except Exception` catches it and raises the
generic HTTP-status message instead. -/
def sessionTokenNon200 (resp : PreAuthResponse) : Except PyErr (PyVal × PyVal) :=
  pyTryExcept
    (match resp.jsonBody with
     | Option.none => .error .jsonError
     | some errorData =>
       match errorData with
       | .dict kvs =>
         let errorMsg := pyGetD kvs "errorSummary" (.str "Authentication failed")
         let errorCode := pyGetD kvs "errorCode" (.str "Unknown")
         .error (.redEnergyAuthError
           ("Okta authentication failed: " ++ pyStrOf errorMsg ++
            " (Code: " ++ pyStrOf errorCode ++ ")"))
       | _ => .error (.attributeError "get"))
    (fun _parseErr =>
      .error (.redEnergyAuthError
        ("Okta authentication failed with HTTP " ++ toString resp.status)))

/-- Embedding of `_get_session_token`: non-200 responses go through the
`try/except` branch above; 200 responses are parsed, the `status` field
must be the literal `"SUCCESS"`, then `sessionToken`/`expiresAt` are read
by subscript. -/
def getSessionToken (resp : PreAuthResponse) : Except PyErr (PyVal × PyVal) :=
  if resp.status ≠ 200 then sessionTokenNon200 resp
  else
    match resp.jsonBody with
    | Option.none => .error .jsonError
    | some (.dict kvs) =>
      let statusVal := pyGetD kvs "status" .none
      let isSuccess : Bool :=
        match statusVal with
        | .str s => s == "SUCCESS"
        | _ => false
      if !isSuccess then
        .error (.redEnergyAuthError ("Authentication failed - Status: " ++ pyStrOf statusVal))
      else
        match pyGet kvs "sessionToken" with
        | Option.none => .error (.keyError "sessionToken")
        | some tok =>
          match pyGet kvs "expiresAt" with
          | Option.none => .error (.keyError "expiresAt")
          | some expiresAt => .ok (tok, expiresAt)
    | some _ => .error (.attributeError "get")

/-!
## The bulk collection pass (`coordinator.py`, `_async_update_data`)
-/

/-- Which exceptions the per-service handler
`except (RedEnergyAPIError, DataValidationError)` catches
(`RedEnergyAuthError` is a subclass of `RedEnergyAPIError`). -/
def caughtPerService : PyErr → Bool
  | .redEnergyAuthError _ => true
  | .redEnergyAPIError _ => true
  | .dataValidationError _ => true
  | _ => false

/-- One service record of a property, with the fields the collection loop
reads: `type`, `consumer_number` (`""` models an absent/falsy value) and
`active` (default `True`). -/
structure ServiceRec : Type where
  stype : String
  consumer_number : String
  active : Bool

/-- One property record: its id (as the string the loop compares against
`selected_accounts`) and its services. -/
structure PropertyRec : Type where
  pid : String
  services : List ServiceRec

/-- Whether the loop considers a service at all: a truthy consumer
number, a configured service type, and the service active. -/
def consideredService (cfgServices : List String) (s : ServiceRec) : Bool :=
  s.consumer_number != "" && cfgServices.contains s.stype && s.active

/-- The inner service loop of `_async_update_data`: skipped services are
passed over; a fetched-and-validated result is stored under the service
type; an exception of a caught kind skips just that service
(`continue`); any other exception escapes the loop. `fetch` is the
combined outcome of `api.get_usage_data` + `validate_usage_data` for a
consumer number. -/
def processServices (cfgServices : List String)
    (fetch : String → Except PyErr PyVal) :
    PyDict → List ServiceRec → Except PyErr PyDict
  | acc, [] => .ok acc
  | acc, s :: rest =>
    if !consideredService cfgServices s then
      processServices cfgServices fetch acc rest
    else
      match fetch s.consumer_number with
      | .ok doc => processServices cfgServices fetch (pyDictSet acc s.stype doc) rest
      | .error e =>
        if caughtPerService e then processServices cfgServices fetch acc rest
        else .error e

/-- The property loop of `_async_update_data`: unselected properties are
skipped; a property contributes an entry only when at least one of its
services yielded a result. -/
def collectProperties (selected cfgServices : List String)
    (fetch : String → Except PyErr PyVal) :
    List (String × PyDict) → List PropertyRec → Except PyErr (List (String × PyDict))
  | acc, [] => .ok acc
  | acc, p :: rest =>
    if !selected.contains p.pid then
      collectProperties selected cfgServices fetch acc rest
    else
      match processServices cfgServices fetch [] p.services with
      | .error e => .error e
      | .ok propertyUsage =>
        if propertyUsage.isEmpty then
          collectProperties selected cfgServices fetch acc rest
        else
          collectProperties selected cfgServices fetch (acc ++ [(p.pid, propertyUsage)]) rest

/-- How `_async_update_data` concludes: an exception escaping the loops is
wrapped into `UpdateFailed` by the outer `except` clauses; an empty
collection raises `UpdateFailed`; otherwise the collected map is
returned. `Except String` models `UpdateFailed` with its message kind. -/
def asyncUpdateData (props : List PropertyRec) (selected cfgServices : List String)
    (fetch : String → Except PyErr PyVal) : Except String (List (String × PyDict)) :=
  match collectProperties selected cfgServices fetch [] props with
  | .error (.redEnergyAuthError _) => .error "Authentication failed"
  | .error (.redEnergyAPIError _) => .error "API error"
  | .error _ => .error "Unexpected error"
  | .ok usageData =>
    if usageData.isEmpty then
      .error "No usage data retrieved for any configured services"
    else .ok usageData

/-!
## Call arity (`api.py` line 46 vs `coordinator.py` line 81)
-/

/-- The parameters of `RedEnergyAPI.authenticate` after `self`, from its
`def` line (no defaults, no varargs). -/
def authenticateParams : List String :=
  ["username", "password"]

/-- The positional arguments the coordinator passes after `self` in
`await self.api.authenticate(self.username, self.password, self.client_id)`. -/
def coordinatorAuthenticateArgs : List String :=
  ["self.username", "self.password", "self.client_id"]

/-- Binding positional arguments to a parameter list with no defaults and
no varargs: the call raises `TypeError` unless the counts agree. -/
def pyCallBinds (params : List String) (nargs : ℕ) : Bool :=
  nargs == params.length

/-!
## Concrete inputs used by witnesses and counterexamples
-/

/-- Whether an `Except` result is a success. -/
def isOkB {α : Type} : Except PyErr α → Bool
  | .ok _ => true
  | .error _ => false

/-- Interval A of the aggregation scenario:
`consumptionKwh=1.0, generationKwh=0.2, tariff PEAK`. -/
def intervalA : PyVal :=
  .dict [("consumptionKwh", .num 1), ("generationKwh", .num (mkRat 1 5)),
         ("primaryConsumptionTariffComponent", .str "PEAK")]

/-- Interval B of the aggregation scenario:
`consumptionKwh=2.0, generationKwh=0.0, tariff OFFPEAK`. -/
def intervalB : PyVal :=
  .dict [("consumptionKwh", .num 2), ("generationKwh", .num 0),
         ("primaryConsumptionTariffComponent", .str "OFFPEAK")]

/-- An entry whose half-hour list is exactly `[intervalA, intervalB]`. -/
def entryABkvs : PyDict :=
  [("halfHours", .list [intervalA, intervalB])]

/-- The normalized daily entry for `entryABkvs`. -/
def entryABResult : DailyEntry where
  date := ""
  usage := mkRat 14 5
  cost := 0
  unit := "kWh"
  import_usage := 3
  export_usage := mkRat 1 5
  import_cost := 0
  export_credit := 0
  net_cost := 0
  peak_import_usage := 1
  offpeak_import_usage := 2
  shoulder_import_usage := 0
  peak_export_usage := mkRat 1 5
  offpeak_export_usage := 0
  shoulder_export_usage := 0
  max_demand_kw := 0
  max_demand_time := Option.none
  carbon_emission_tonne := 0

/-- An entry with a malformed interval: `consumptionKwh` is `None`, so
`float(None)` raises `TypeError` inside the interval loop. -/
def badIntervalEntry : PyVal :=
  .dict [("halfHours", .list [.dict [("consumptionKwh", PyVal.none)]])]

/-- A dict without the canonical keys where one probed alias holds a
non-empty list. -/
def c2DictWithList : PyDict :=
  [("usage", .str "x"), ("data", .list [.dict []])]

/-- A dict without the canonical keys where the first truthy probed alias
is not a list. -/
def c2DictWithStr : PyDict :=
  [("usage", .str "x")]

/-- A 401 pre-auth response whose JSON body carries the upstream error
code and summary. -/
def oktaErrorResponse : PreAuthResponse :=
  ⟨401, some (.dict [("errorSummary", .str "Invalid credentials"),
                     ("errorCode", .str "E0000004")])⟩

/-- A successful run of the first three authentication steps followed by
a 200 code-exchange response whose `expires_in` is a string: the
`timedelta` construction raises after `_access_token` and
`_refresh_token` have been assigned. -/
def c10BadExpiresNet : AuthNetOutcomes :=
  ⟨.ok (.str "sessTok", .str "2025-01-01T00:00:00Z"),
   .ok ("https://auth", "https://token"),
   .ok "authCode",
   ⟨200, some (.dict [("access_token", .str "T"), ("expires_in", .str "soon")])⟩⟩

/-- Token state with a valid unexpired token. -/
def stFresh : AuthState := ⟨.str "tok", .str "refresh", some 100⟩

/-- Token state with an expired token and a refresh token. -/
def stExpired : AuthState := ⟨.str "tok", .str "refresh", some 50⟩

/-- Token state with an expired token and no refresh token. -/
def stExpiredNoRefresh : AuthState := ⟨.str "tok", .none, some 50⟩

/-- A refresh outcome used to instantiate `refreshFn` in witnesses. -/
def refreshToFixed : AuthState → Except PyErr AuthState :=
  fun _ => .ok ⟨.str "tok2", .str "refresh2", some 200⟩

/-- A run whose pre-auth step fails (and whose later outcomes are
irrelevant). -/
def c10PreAuthFailNet : AuthNetOutcomes :=
  ⟨.error (.redEnergyAuthError "Okta authentication failed with HTTP 401"),
   .ok ("https://auth", "https://token"), .ok "authCode", ⟨200, Option.none⟩⟩

/-- A fully successful authentication run with a well-formed token
response. -/
def c10GoodNet : AuthNetOutcomes :=
  ⟨.ok (.str "sessTok", .str "2025-01-01T00:00:00Z"),
   .ok ("https://auth", "https://token"),
   .ok "authCode",
   ⟨200, some (.dict [("access_token", .str "AT"), ("refresh_token", .str "RT"),
                      ("expires_in", .num 3600)])⟩⟩

/-- The same run but with a 201 code-exchange status:
`raise_for_status()` does not fire below 400, so the code still parses
the body and assigns all token fields. -/
def c10Status201Net : AuthNetOutcomes :=
  ⟨.ok (.str "sessTok", .str "2025-01-01T00:00:00Z"),
   .ok ("https://auth", "https://token"),
   .ok "authCode",
   ⟨201, some (.dict [("access_token", .str "AT"), ("refresh_token", .str "RT"),
                      ("expires_in", .num 3600)])⟩⟩

/-- The three-property scenario of the partial-failure claim: the middle
property's single service fails, the other two succeed. -/
def c9Properties : List PropertyRec :=
  [⟨"p1", [⟨"electricity", "c1", true⟩]⟩,
   ⟨"p2", [⟨"electricity", "c2", true⟩]⟩,
   ⟨"p3", [⟨"electricity", "c3", true⟩]⟩]

/-- The fetch outcomes of the three-property scenario: consumer `c2`
yields an error-shaped payload (a validation failure), the others
succeed. -/
def c9Fetch : String → Except PyErr PyVal :=
  fun cn =>
    if cn = "c2" then .error (.dataValidationError "error-shaped payload")
    else .ok (.dict [("consumer_number", .str cn)])

/-- The same scenario but with an uncaught failure kind: consumer `c2`'s
usage call returns HTTP 500, so `raise_for_status()` inside
`get_usage_data` raises an aiohttp `ClientResponseError` — an exception
that is neither a `RedEnergyAPIError` nor a `DataValidationError`. -/
def c9FetchHttp : String → Except PyErr PyVal :=
  fun cn =>
    if cn = "c2" then .error (.httpStatusError 500)
    else .ok (.dict [("consumer_number", .str cn)])

/-!
## Bridge lemmas and sanity checks
-/

theorem ratAdd_eq (a b : ℚ) : ratAdd a b = a + b := by
  have ha : (a.den : ℚ) ≠ 0 := Nat.cast_ne_zero.mpr a.den_nz
  have hb : (b.den : ℚ) ≠ 0 := Nat.cast_ne_zero.mpr b.den_nz
  rw [ratAdd, Rat.mkRat_eq_div]
  conv_rhs => rw [← Rat.num_div_den a, ← Rat.num_div_den b]
  rw [div_add_div _ _ ha hb]
  push_cast
  ring_nf

theorem ratNeg_eq (a : ℚ) : ratNeg a = -a := by
  rw [ratNeg, Rat.mkRat_eq_div]
  push_cast
  rw [neg_div, Rat.num_div_den]

theorem ratSub_eq (a b : ℚ) : ratSub a b = a - b := by
  rw [ratSub, ratAdd_eq, ratNeg_eq, sub_eq_add_neg]

theorem ratMul_eq (a b : ℚ) : ratMul a b = a * b := by
  rw [ratMul, Rat.mkRat_eq_div]
  conv_rhs => rw [← Rat.num_div_den a, ← Rat.num_div_den b]
  rw [div_mul_div_comm]
  push_cast
  ring_nf

theorem ratAbs_eq (a : ℚ) : ratAbs a = |a| := by
  rw [ratAbs]
  by_cases h : a < 0
  · rw [if_pos h, ratNeg_eq, abs_of_neg h]
  · rw [if_neg h, abs_of_nonneg (not_lt.mp h)]

example : pyRound 3 (mkRat 14 5) = mkRat 14 5 := by decide
example : pyRound 3 (mkRat 1 3) = mkRat 333 1000 := by decide
example : pyRound 2 (mkRat 1 3) = mkRat 33 100 := by decide
example : parseDecimal "1.5" = some (mkRat 3 2) := by decide
example : parseDecimal "-0.25" = some (mkRat (-1) 4) := by decide
example : parseDecimal "abc" = Option.none := by decide
example : parseDecimal "" = Option.none := by decide
example : parseDecimal "." = Option.none := by decide
example : parseDecimal ".5" = some (mkRat 1 2) := by decide
example : floatOf .none = Option.none := by decide
example : strUpper "pEak" = "PEAK" := by decide

/-!
## SHA-256 agreement with the standard test vectors
-/

set_option maxRecDepth 100000 in
example : sha256 (utf8Bytes "abc") =
    [186, 120, 22, 191, 143, 1, 207, 234, 65, 65, 64, 222, 93, 174, 34, 35,
     176, 3, 97, 163, 150, 23, 122, 156, 180, 16, 255, 97, 242, 0, 21, 173] := by
  decide

set_option maxRecDepth 100000 in
example : generateCodeChallenge (String.mk (List.replicate 48 'a'))
    = "l9qsDumZjfytbJwJcNpcpBHIYjOpRMJbR1ZvanvB3dU" := by
  decide

/-!
## Helper lemmas
-/

/-- The `or`-chain over probe keys takes the value of the first key whose
value is truthy (an absent key reads as falsy `None`), and the empty list
when every probed value is falsy. -/
theorem orChain_eq_find (kvs : PyDict) :
    ∀ ks : List String,
      orChain kvs ks =
        (match ks.find? (fun k => pyTruthy (pyGetD kvs k .none)) with
         | some k => pyGetD kvs k .none
         | Option.none => .list [])
  | [] => rfl
  | k :: rest => by
    rw [orChain]
    cases h : pyTruthy (pyGetD kvs k .none) with
    | true =>
      rw [List.find?_cons_of_pos _ (by simpa using h)]
      simp
    | false =>
      rw [List.find?_cons_of_neg _ (by simp [h])]
      simp only [Bool.false_eq_true, if_false]
      exact orChain_eq_find kvs rest

/-!
## Claim C4 — canonical passthrough
-/

/-- C4: a dict raw response already carrying both `consumer_number` and
`usage_data` keys is returned unchanged by `_transform_usage_data`,
whatever the values under those keys and the caller-supplied consumer
number and date range. -/
theorem claim_c4 (kvs : PyDict) (c f t : String)
    (h1 : pyHasKey kvs "consumer_number" = true)
    (h2 : pyHasKey kvs "usage_data" = true) :
    transformUsageData (.dict kvs) c f t = some (.dict kvs) := by
  simp [transformUsageData, h1, h2]

/-- Witness for C4 at a concrete document. -/
theorem claim_c4_witness :
    transformUsageData
        (.dict [("consumer_number", .str "123"), ("usage_data", .num 7)])
        "9" "2024-01-01" "2024-01-31"
      = some (.dict [("consumer_number", .str "123"), ("usage_data", .num 7)]) :=
  claim_c4 [("consumer_number", .str "123"), ("usage_data", .num 7)]
    "9" "2024-01-01" "2024-01-31" (by decide) (by decide)

/-!
## Claim C2 — dict probing
-/

/-- C2 counterexample: for the empty dict (which carries neither
canonical key and where no probed key holds a list), the code returns a
document with an empty `usage_data` list, not the single-entry wrap of
the whole dict that the claim describes. -/
theorem claim_c2_counterexample :
    transformUsageData (.dict []) "7" "2024-01-01" "2024-01-31"
        = some (mkDoc "7" "2024-01-01" "2024-01-31" []) ∧
    normalizeUsageEntry (.dict []) = some emptyEntry ∧
    mkDoc "7" "2024-01-01" "2024-01-31" []
        ≠ mkDoc "7" "2024-01-01" "2024-01-31" [emptyEntry] :=
  ⟨rfl, rfl, by simp [mkDoc]⟩

/-- C2 (amended): for a dict raw response without both canonical keys,
the probed keys are examined in order and the first *truthy* value is
taken, defaulting to the empty list; when that value is a list its
elements are normalized into the document, and otherwise — i.e. when the
first truthy probed value is not a list — the whole dict is normalized as
a single entry. (In particular a dict none of whose probed keys holds a
truthy value yields an empty `usage_data`, not a single-entry wrap, and a
truthy non-list under an early key shadows a list under a later key.) -/
theorem claim_c2 (kvs : PyDict) (c f t : String)
    (hno : ¬(pyHasKey kvs "consumer_number" = true ∧ pyHasKey kvs "usage_data" = true)) :
    (orChain kvs probeKeys =
      (match probeKeys.find? (fun k => pyTruthy (pyGetD kvs k .none)) with
       | some k => pyGetD kvs k .none
       | Option.none => .list [])) ∧
    (∀ es, orChain kvs probeKeys = .list es →
      transformUsageData (.dict kvs) c f t = (normalizeList es).map (mkDoc c f t)) ∧
    ((∀ es, orChain kvs probeKeys ≠ .list es) →
      transformUsageData (.dict kvs) c f t =
        (normalizeUsageEntry (.dict kvs)).map (fun e => mkDoc c f t [e])) := by
  refine ⟨orChain_eq_find kvs probeKeys, ?_, ?_⟩
  · intro es hes
    simp [transformUsageData, hno, hes]
  · intro hnl
    cases hv : orChain kvs probeKeys with
    | list es => exact absurd hv (hnl es)
    | none => simp [transformUsageData, hno, hv]
    | bool b => simp [transformUsageData, hno, hv]
    | num q => simp [transformUsageData, hno, hv]
    | str s => simp [transformUsageData, hno, hv]
    | dict d => simp [transformUsageData, hno, hv]

/-- Witness for C2 at two concrete dicts: one where a probed key holds a
non-empty list, one where the first truthy probed value is a string. -/
theorem claim_c2_witness :
    transformUsageData (.dict c2DictWithList) "7" "a" "b"
        = (normalizeList [.dict []]).map (mkDoc "7" "a" "b") ∧
    transformUsageData (.dict c2DictWithStr) "7" "a" "b"
        = (normalizeUsageEntry (.dict c2DictWithStr)).map (fun e => mkDoc "7" "a" "b" [e]) :=
  ⟨(claim_c2 c2DictWithList "7" "a" "b" (by decide)).2.1 [.dict []] rfl,
   (claim_c2 c2DictWithStr "7" "a" "b" (by decide)).2.2 (fun _ h => nomatch h)⟩

/-!
## Claim C7 — pre-auth error detail (code bug)
-/

/-- C7: the code cannot surface the upstream error code/summary on a
non-200 pre-auth response. The specific `RedEnergyAuthError` built from
`errorSummary`/`errorCode` is raised *inside* the `try` block, so the
block's own `except Exception` catches it and replaces it with the
generic HTTP-status message: at a 401 response whose body carries both
fields, the caller sees only the generic message. -/
theorem claim_c7 :
    getSessionToken oktaErrorResponse
        = .error (.redEnergyAuthError "Okta authentication failed with HTTP 401") ∧
    (.redEnergyAuthError "Okta authentication failed with HTTP 401" : PyErr)
        ≠ .redEnergyAuthError
            "Okta authentication failed: Invalid credentials (Code: E0000004)" := by
  exact ⟨rfl, by decide⟩

/-!
## Claim C8 — authenticate arity (code bug)
-/

/-- C8: `RedEnergyAPI.authenticate` takes only `(username, password)`
after `self`, so it does not accept a per-call client identifier, and the
coordinator's three-positional-argument call cannot bind — it raises
`TypeError` instead of succeeding. -/
theorem claim_c8 :
    authenticateParams.length = 2 ∧
    coordinatorAuthenticateArgs.length = 3 ∧
    authenticateParams.contains "client_id" = false ∧
    pyCallBinds authenticateParams coordinatorAuthenticateArgs.length = false := by
  decide

/-!
## Claim C5 — token lifecycle
-/

/-- C5: `_ensure_valid_token` is a no-op (state unchanged, zero network
refreshes) when a token is set and `now` is before its expiry; it fails
with the distinct not-authenticated `RedEnergyAuthError` (zero refreshes)
when no token is set; it performs exactly one refresh when the token is
expired and a refresh token exists; and when expired with no refresh
token it fails, without a refresh call, with the distinct
expired-unrefreshable `RedEnergyAuthError` — an error kind separate from
plain API and HTTP errors. -/
theorem claim_c5 (st : AuthState) (now : ℚ)
    (refreshFn : AuthState → Except PyErr AuthState) :
    (∀ expiresAt, pyTruthy st.access_token = true →
      st.token_expires = some expiresAt → now < expiresAt →
      ensureValidToken st now refreshFn = (.ok (), st, 0)) ∧
    (pyTruthy st.access_token = false →
      ensureValidToken st now refreshFn
        = (.error (.redEnergyAuthError "No access token available"), st, 0)) ∧
    (∀ expiresAt, pyTruthy st.access_token = true →
      st.token_expires = some expiresAt → expiresAt ≤ now →
      pyTruthy st.refresh_token = true →
      (ensureValidToken st now refreshFn).2.2 = 1) ∧
    (∀ expiresAt, pyTruthy st.access_token = true →
      st.token_expires = some expiresAt → expiresAt ≤ now →
      pyTruthy st.refresh_token = false →
      ensureValidToken st now refreshFn
        = (.error (.redEnergyAuthError "Token expired and no refresh token available"),
           st, 0)) ∧
    ((PyErr.redEnergyAuthError "No access token available")
      ≠ .redEnergyAuthError "Token expired and no refresh token available") ∧
    (∀ m s, (PyErr.redEnergyAuthError "Token expired and no refresh token available")
        ≠ .redEnergyAPIError m ∧
      (PyErr.redEnergyAuthError "Token expired and no refresh token available")
        ≠ .httpStatusError s) := by
  refine ⟨?_, ?_, ?_, ?_, by decide, by intro m s; exact ⟨by simp, by simp⟩⟩
  · intro expiresAt htok hexp hlt
    simp [ensureValidToken, htok, hexp, not_le.mpr hlt]
  · intro htok
    simp [ensureValidToken, htok]
  · intro expiresAt htok hexp hle href
    cases hr : refreshFn st with
    | ok st' => simp [ensureValidToken, htok, hexp, hle, href, hr]
    | error e => simp [ensureValidToken, htok, hexp, hle, href, hr]
  · intro expiresAt htok hexp hle href
    simp [ensureValidToken, htok, hexp, hle, href]

/-- Witness for C5: the four lifecycle scenarios at concrete states. -/
theorem claim_c5_witness :
    ensureValidToken stFresh 10 refreshToFixed = (.ok (), stFresh, 0) ∧
    ensureValidToken initialAuthState 10 refreshToFixed
      = (.error (.redEnergyAuthError "No access token available"), initialAuthState, 0) ∧
    (ensureValidToken stExpired 60 refreshToFixed).2.2 = 1 ∧
    ensureValidToken stExpiredNoRefresh 60 refreshToFixed
      = (.error (.redEnergyAuthError "Token expired and no refresh token available"),
         stExpiredNoRefresh, 0) :=
  ⟨(claim_c5 stFresh 10 refreshToFixed).1 100 (by decide) rfl (by decide),
   (claim_c5 initialAuthState 10 refreshToFixed).2.1 (by decide),
   (claim_c5 stExpired 60 refreshToFixed).2.2.1 50 (by decide) rfl (by decide) (by decide),
   (claim_c5 stExpiredNoRefresh 60 refreshToFixed).2.2.2.1 50 (by decide) rfl
     (by decide) (by decide)⟩

/-!
## Claim C6 — PKCE correctness
-/

/-- C6: every generated code verifier is exactly 48 characters, each
drawn from the unreserved alphabet (letters, digits, `-._~`), and the
code challenge is the URL-safe base64 encoding, with padding stripped, of
the SHA-256 digest of the verifier's UTF-8 bytes. -/
theorem claim_c6 (pick : ℕ → Fin codeVerifierAlphabet.length) :
    (generateCodeVerifier pick).length = 48 ∧
    (∀ c ∈ (generateCodeVerifier pick).data, c ∈ codeVerifierAlphabet) ∧
    codeVerifierAlphabet.all
      (fun c => c.isAlphanum || (['-', '.', '_', '~'] : List Char).contains c) = true ∧
    generateCodeChallenge (generateCodeVerifier pick)
      = ⟨rstripEq (base64urlEncode (sha256 (utf8Bytes (generateCodeVerifier pick))))⟩ := by
  refine ⟨?_, ?_, by decide, rfl⟩
  · simp [generateCodeVerifier, String.length]
  · intro c hc
    have hm : c ∈ (List.range 48).map (fun i => codeVerifierAlphabet.get (pick i)) := hc
    simp only [List.mem_map] at hm
    obtain ⟨i, _, rfl⟩ := hm
    exact List.get_mem _ _ _

/-!
## Claim C10 — authenticate leaves state unchanged on failure (amended)
-/

/-- C10 counterexample: two refutations of the original claim. A 200
code-exchange response whose body holds an `access_token` but a
non-numeric `expires_in` makes `authenticate` fail *after* assigning
`_access_token` — the session state is not left as it was before the
call. And a 201 code-exchange response with a well-formed body is below
the 400 threshold of `raise_for_status()`, so `authenticate` assigns all
token fields and succeeds without ever receiving a 200 — the fields are
not "assigned only after status 200". -/
theorem claim_c10_counterexample :
    (authenticate initialAuthState 0 c10BadExpiresNet).1
        = .error (.redEnergyAuthError "Authentication failed due to unexpected error") ∧
    (authenticate initialAuthState 0 c10BadExpiresNet).2.access_token = .str "T" ∧
    initialAuthState.access_token = .none ∧
    (PyVal.str "T") ≠ PyVal.none ∧
    c10Status201Net.exchange.status = 201 ∧
    authenticate initialAuthState 0 c10Status201Net
      = (.ok true, ⟨.str "AT", .str "RT", some (ratAdd 0 3600)⟩) ∧
    (AuthState.mk (.str "AT") (.str "RT") (some (ratAdd 0 3600))).access_token
      ≠ initialAuthState.access_token := by
  refine ⟨rfl, rfl, rfl, ?_, rfl, rfl, ?_⟩
  · intro h
    exact nomatch h
  · intro h
    exact nomatch h

/-- C10 (amended): if the pre-auth, discovery, or authorization-code step
fails, or the code-exchange response has status 400 or above (the only
statuses `raise_for_status()` raises for), or a sub-400 response's body
is unparseable, not a dict, or lacks `access_token`, then `authenticate`
fails with the session state exactly as before; the token fields are
assigned only once a code-exchange response with status below 400 has
been received — any such response with a well-formed body (a 201 as much
as a 200) sets all three fields and succeeds; but on a sub-400 body
whose `expires_in` is not a number, `authenticate` fails after
`_access_token` and `_refresh_token` have already been assigned
(`_token_expires` untouched). -/
theorem claim_c10 (st : AuthState) (now : ℚ) (net : AuthNetOutcomes) :
    (∀ e, net.sessionToken = .error e →
      authenticate st now net = (.error (wrapAuthError e), st)) ∧
    (∀ p e, net.sessionToken = .ok p → net.discovery = .error e →
      authenticate st now net = (.error (wrapAuthError e), st)) ∧
    (∀ p d e, net.sessionToken = .ok p → net.discovery = .ok d →
      net.authCode = .error e →
      authenticate st now net = (.error (wrapAuthError e), st)) ∧
    (∀ p d a, net.sessionToken = .ok p → net.discovery = .ok d →
      net.authCode = .ok a → 400 ≤ net.exchange.status →
      authenticate st now net
        = (.error (wrapAuthError (.httpStatusError net.exchange.status)), st)) ∧
    (∀ p d a, net.sessionToken = .ok p → net.discovery = .ok d →
      net.authCode = .ok a → net.exchange.status < 400 →
      net.exchange.body = Option.none →
      authenticate st now net = (.error (wrapAuthError .jsonError), st)) ∧
    (∀ p d a b, net.sessionToken = .ok p → net.discovery = .ok d →
      net.authCode = .ok a → net.exchange.status < 400 →
      net.exchange.body = some b → isDict b = false →
      (authenticate st now net).2 = st) ∧
    (∀ p d a tokens, net.sessionToken = .ok p → net.discovery = .ok d →
      net.authCode = .ok a → net.exchange.status < 400 →
      net.exchange.body = some (.dict tokens) →
      pyGet tokens "access_token" = Option.none →
      authenticate st now net = (.error (wrapAuthError (.keyError "access_token")), st)) ∧
    (∀ p d a tokens tok q, net.sessionToken = .ok p → net.discovery = .ok d →
      net.authCode = .ok a → net.exchange.status < 400 →
      net.exchange.body = some (.dict tokens) →
      pyGet tokens "access_token" = some tok →
      secondsOf (pyGetD tokens "expires_in" (.num 3600)) = some q →
      authenticate st now net
        = (.ok true, ⟨tok, pyGetD tokens "refresh_token" .none, some (ratAdd now q)⟩)) ∧
    (∀ p d a tokens tok, net.sessionToken = .ok p → net.discovery = .ok d →
      net.authCode = .ok a → net.exchange.status < 400 →
      net.exchange.body = some (.dict tokens) →
      pyGet tokens "access_token" = some tok →
      secondsOf (pyGetD tokens "expires_in" (.num 3600)) = Option.none →
      authenticate st now net
        = (.error (wrapAuthError (.typeError "timedelta seconds")),
           ⟨tok, pyGetD tokens "refresh_token" .none, st.token_expires⟩)) := by
  refine ⟨?_, ?_, ?_, ?_, ?_, ?_, ?_, ?_, ?_⟩
  · intro e h
    simp [authenticate, h]
  · intro p e h1 h2
    simp [authenticate, h1, h2]
  · intro p d e h1 h2 h3
    simp [authenticate, h1, h2, h3]
  · intro p d a h1 h2 h3 h4
    simp [authenticate, h1, h2, h3, exchangeCodeForTokens, h4]
  · intro p d a h1 h2 h3 h4 h5
    simp [authenticate, h1, h2, h3, exchangeCodeForTokens, storeTokens,
          not_le.mpr h4, h5]
  · intro p d a b h1 h2 h3 h4 h5 h6
    cases b <;>
      simp_all [authenticate, exchangeCodeForTokens, storeTokens, isDict, not_le.mpr h4]
  · intro p d a tokens h1 h2 h3 h4 h5 h6
    simp [authenticate, h1, h2, h3, exchangeCodeForTokens, storeTokens,
          not_le.mpr h4, h5, h6]
  · intro p d a tokens tok q h1 h2 h3 h4 h5 h6 h7
    simp [authenticate, h1, h2, h3, exchangeCodeForTokens, storeTokens,
          not_le.mpr h4, h5, h6, h7]
  · intro p d a tokens tok h1 h2 h3 h4 h5 h6 h7
    simp [authenticate, h1, h2, h3, exchangeCodeForTokens, storeTokens,
          not_le.mpr h4, h5, h6, h7]

/-- Witness for C10: a failed pre-auth leaves the fresh state untouched;
complete successful runs at status 200 and at status 201 both install
the returned tokens; the malformed sub-400-response run fails with the
access token already overwritten. -/
theorem claim_c10_witness :
    authenticate stFresh 0 c10PreAuthFailNet
      = (.error (wrapAuthError
          (.redEnergyAuthError "Okta authentication failed with HTTP 401")), stFresh) ∧
    authenticate initialAuthState 0 c10GoodNet
      = (.ok true, ⟨.str "AT", .str "RT", some (ratAdd 0 3600)⟩) ∧
    authenticate initialAuthState 0 c10Status201Net
      = (.ok true, ⟨.str "AT", .str "RT", some (ratAdd 0 3600)⟩) ∧
    authenticate initialAuthState 0 c10BadExpiresNet
      = (.error (wrapAuthError (.typeError "timedelta seconds")),
         ⟨.str "T", PyVal.none, Option.none⟩) :=
  ⟨(claim_c10 stFresh 0 c10PreAuthFailNet).1 _ rfl,
   (claim_c10 initialAuthState 0 c10GoodNet).2.2.2.2.2.2.2.1
     (.str "sessTok", .str "2025-01-01T00:00:00Z") ("https://auth", "https://token")
     "authCode" [("access_token", .str "AT"), ("refresh_token", .str "RT"),
                 ("expires_in", .num 3600)] (.str "AT") 3600
     rfl rfl rfl (by decide) rfl rfl rfl,
   (claim_c10 initialAuthState 0 c10Status201Net).2.2.2.2.2.2.2.1
     (.str "sessTok", .str "2025-01-01T00:00:00Z") ("https://auth", "https://token")
     "authCode" [("access_token", .str "AT"), ("refresh_token", .str "RT"),
                 ("expires_in", .num 3600)] (.str "AT") 3600
     rfl rfl rfl (by decide) rfl rfl rfl,
   (claim_c10 initialAuthState 0 c10BadExpiresNet).2.2.2.2.2.2.2.2
     (.str "sessTok", .str "2025-01-01T00:00:00Z") ("https://auth", "https://token")
     "authCode" [("access_token", .str "T"), ("expires_in", .str "soon")] (.str "T")
     rfl rfl rfl (by decide) rfl rfl rfl⟩

/-!
## Claim C3 — malformed-input tolerance (amended)
-/

/-- Processing a well-formed interval cannot raise. -/
theorem stepInterval_isSome {iv : PyVal} (h : intervalOk iv = true) (acc : IntervalAcc) :
    (stepInterval acc iv).isSome = true := by
  cases iv with
  | dict kvs =>
    simp only [intervalOk, floatOk, Bool.and_eq_true] at h
    obtain ⟨⟨⟨hc, hg⟩, ht⟩, hd⟩ := h
    obtain ⟨c, hceq⟩ := Option.isSome_iff_exists.mp hc
    obtain ⟨g, hgeq⟩ := Option.isSome_iff_exists.mp hg
    obtain ⟨period, hteq⟩ := Option.isSome_iff_exists.mp ht
    simp only [stepInterval, hceq, hgeq, hteq]
    cases hdd : pyGetD kvs "demandDetail" (.dict []) with
    | dict dkvs =>
      simp only [hdd] at hd
      obtain ⟨dk, hdkeq⟩ := Option.isSome_iff_exists.mp hd
      simp [hdkeq]
    | none => simp
    | bool b => simp
    | num q => simp
    | str s => simp
    | list xs => simp
  | none => rfl
  | bool b => rfl
  | num q => rfl
  | str s => rfl
  | list xs => rfl

/-- The interval loop cannot raise over a list of well-formed intervals. -/
theorem processIntervals_isSome :
    ∀ (hs : List PyVal) (acc : IntervalAcc), hs.all intervalOk = true →
      (processIntervals acc hs).isSome = true
  | [], _, _ => rfl
  | iv :: rest, acc, h => by
    simp only [List.all_cons, Bool.and_eq_true] at h
    obtain ⟨acc', hacc⟩ := Option.isSome_iff_exists.mp (stepInterval_isSome h.1 acc)
    rw [processIntervals, hacc]
    exact processIntervals_isSome rest acc' h.2

/-- The interval-loop phase cannot raise over well-formed intervals. -/
theorem halfHoursAcc_isSome {kvs : PyDict} (h : halfHoursOk kvs = true) :
    (halfHoursAcc kvs).isSome = true := by
  rw [halfHoursOk] at h
  rw [halfHoursAcc]
  cases hhv : pyGetD kvs "halfHours" (.list []) with
  | list hs =>
    rw [hhv] at h
    exact processIntervals_isSome hs initAcc h
  | none => rfl
  | bool b => rfl
  | num q => rfl
  | str s => rfl
  | dict d => rfl

/-- The max-demand override cannot raise on a well-formed summary. -/
theorem dailyMaxDemand_isSome {kvs : PyDict} (h : maxDemandOk kvs = true)
    (acc : IntervalAcc) : (dailyMaxDemand kvs acc).isSome = true := by
  rw [maxDemandOk] at h
  rw [dailyMaxDemand]
  cases hmdd : pyGetD kvs "maxDemandDetail" (.dict []) with
  | dict dkvs =>
    simp only [hmdd] at h
    cases hde : dkvs.isEmpty with
    | true => simp [hde]
    | false =>
      rw [hde, Bool.false_or, floatOk] at h
      obtain ⟨dailyMax, h4⟩ := Option.isSome_iff_exists.mp h
      simp [hde, h4]
  | none => rfl
  | bool b => rfl
  | num q => rfl
  | str s => rfl
  | list xs => rfl

/-- Normalizing a well-formed entry cannot raise. -/
theorem normalizeUsageEntry_isSome {entry : PyVal} (h : entryOk entry = true) :
    (normalizeUsageEntry entry).isSome = true := by
  cases entry with
  | dict kvs =>
    simp only [entryOk, floatOk, Bool.and_eq_true] at h
    obtain ⟨⟨⟨⟨hh, hcd⟩, hgd⟩, hcarb⟩, hmd⟩ := h
    obtain ⟨acc, hacceq⟩ := Option.isSome_iff_exists.mp (halfHoursAcc_isSome hh)
    obtain ⟨importCost, h1⟩ := Option.isSome_iff_exists.mp hcd
    obtain ⟨generationDollar, h2⟩ := Option.isSome_iff_exists.mp hgd
    obtain ⟨carbonEmission, h3⟩ := Option.isSome_iff_exists.mp hcarb
    obtain ⟨md, h4⟩ := Option.isSome_iff_exists.mp (dailyMaxDemand_isSome hmd acc)
    obtain ⟨mdk, mdt⟩ := md
    simp [normalizeUsageEntry, hacceq, h1, h2, h3, h4]
  | none => rfl
  | bool b => rfl
  | num q => rfl
  | str s => rfl
  | list xs => rfl

/-- Normalizing a list of well-formed entries cannot raise. -/
theorem normalizeList_isSome :
    ∀ es : List PyVal, es.all entryOk = true → (normalizeList es).isSome = true
  | [], _ => rfl
  | e :: rest, h => by
    simp only [List.all_cons, Bool.and_eq_true] at h
    obtain ⟨d, hd⟩ := Option.isSome_iff_exists.mp (normalizeUsageEntry_isSome h.1)
    obtain ⟨ds, hds⟩ := Option.isSome_iff_exists.mp (normalizeList_isSome rest h.2)
    rw [normalizeList, hd, hds]
    rfl

/-- C3 counterexample: an interval whose `consumptionKwh` is `None` makes
normalization raise (`float(None)` is a `TypeError`), both at the entry
level and through the whole response transformation — malformed interval
*values* are not skipped. -/
theorem claim_c3_counterexample :
    normalizeUsageEntry badIntervalEntry = Option.none ∧
    transformUsageData (.list [badIntervalEntry]) "7" "2024-01-01" "2024-01-31"
      = Option.none :=
  ⟨rfl, rfl⟩

/-- C3 (amended): normalization never raises on responses whose numeric
fields, where present, are `float`-coercible and whose tariff tags, where
present, are strings (`rawOk`); non-dict top-level entries yield the
zero-valued empty entry; and non-dict intervals are skipped exactly — they
leave the interval loop's state untouched, contributing zero to every
aggregate. (A malformed numeric value such as `consumptionKwh = None`
still raises, per the counterexample.) -/
theorem claim_c3 :
    (∀ raw c f t, rawOk raw = true → (transformUsageData raw c f t).isSome = true) ∧
    (∀ v, isDict v = false → normalizeUsageEntry v = some emptyEntry) ∧
    (∀ acc junk hs, isDict junk = false →
      processIntervals acc (junk :: hs) = processIntervals acc hs) := by
  refine ⟨?_, ?_, ?_⟩
  · intro raw c f t h
    cases raw with
    | list entries =>
      rw [rawOk] at h
      obtain ⟨ds, hds⟩ := Option.isSome_iff_exists.mp (normalizeList_isSome entries h)
      simp [transformUsageData, hds]
    | dict kvs =>
      rw [rawOk] at h
      rw [Bool.or_eq_true, Bool.and_eq_true] at h
      rcases h with ⟨h1, h2⟩ | h
      · simp [transformUsageData, h1, h2]
      · by_cases hck : pyHasKey kvs "consumer_number" = true ∧ pyHasKey kvs "usage_data" = true
        · simp [transformUsageData, hck.1, hck.2]
        · cases hv : orChain kvs probeKeys with
          | list es =>
            rw [hv] at h
            obtain ⟨ds, hds⟩ := Option.isSome_iff_exists.mp (normalizeList_isSome es h)
            simp [transformUsageData, hck, hv, hds]
          | none =>
            rw [hv] at h
            obtain ⟨d, hd⟩ := Option.isSome_iff_exists.mp (normalizeUsageEntry_isSome h)
            simp [transformUsageData, hck, hv, hd]
          | bool b =>
            rw [hv] at h
            obtain ⟨d, hd⟩ := Option.isSome_iff_exists.mp (normalizeUsageEntry_isSome h)
            simp [transformUsageData, hck, hv, hd]
          | num q =>
            rw [hv] at h
            obtain ⟨d, hd⟩ := Option.isSome_iff_exists.mp (normalizeUsageEntry_isSome h)
            simp [transformUsageData, hck, hv, hd]
          | str s =>
            rw [hv] at h
            obtain ⟨d, hd⟩ := Option.isSome_iff_exists.mp (normalizeUsageEntry_isSome h)
            simp [transformUsageData, hck, hv, hd]
          | dict d' =>
            rw [hv] at h
            obtain ⟨d, hd⟩ := Option.isSome_iff_exists.mp (normalizeUsageEntry_isSome h)
            simp [transformUsageData, hck, hv, hd]
    | none => rfl
    | bool b => rfl
    | num q => rfl
    | str s => rfl
  · intro v hv
    cases v with
    | dict kvs => simp [isDict] at hv
    | none => rfl
    | bool b => rfl
    | num q => rfl
    | str s => rfl
    | list xs => rfl
  · intro acc junk hs hj
    cases junk with
    | dict kvs => simp [isDict] at hj
    | none => rfl
    | bool b => rfl
    | num q => rfl
    | str s => rfl
    | list xs => rfl

/-- Witness for C3: a response mixing a well-formed entry and a non-dict
entry normalizes without raising; a non-dict entry yields the empty
entry; a non-dict interval is skipped. -/
theorem claim_c3_witness :
    (transformUsageData (.list [.dict entryABkvs, .str "junk"]) "7" "a" "b").isSome
        = true ∧
    normalizeUsageEntry (.num 5) = some emptyEntry ∧
    processIntervals initAcc [.str "junk", intervalA]
        = processIntervals initAcc [intervalA] :=
  ⟨claim_c3.1 (.list [.dict entryABkvs, .str "junk"]) "7" "a" "b" (by decide),
   claim_c3.2.1 (.num 5) (by decide),
   claim_c3.2.2 initAcc (.str "junk") [intervalA] (by decide)⟩

/-!
## Claim C1 — aggregation correctness
-/

theorem importSum_cons (iv : PyVal) (hs : List PyVal) :
    importSum (iv :: hs) = consumptionOf iv + importSum hs := by
  simp [importSum]

theorem exportSum_cons (iv : PyVal) (hs : List PyVal) :
    exportSum (iv :: hs) = generationOf iv + exportSum hs := by
  simp [exportSum]

theorem periodImportSum_cons (p : String) (iv : PyVal) (hs : List PyVal) :
    periodImportSum p (iv :: hs)
      = (if tagOf iv = p then consumptionOf iv else 0) + periodImportSum p hs := by
  by_cases h : tagOf iv = p <;> simp [periodImportSum, List.filter_cons, h]

theorem periodExportSum_cons (p : String) (iv : PyVal) (hs : List PyVal) :
    periodExportSum p (iv :: hs)
      = (if tagOf iv = p then generationOf iv else 0) + periodExportSum p hs := by
  by_cases h : tagOf iv = p <;> simp [periodExportSum, List.filter_cons, h]

/-- One loop iteration advances the totals by the interval's
consumption/generation, and each tariff-period accumulator by the
interval's reading exactly when its upper-cased tag matches that
period. -/
theorem stepInterval_sums {acc acc' : IntervalAcc} {iv : PyVal}
    (h : stepInterval acc iv = some acc') :
    acc'.import_usage = acc.import_usage + consumptionOf iv ∧
    acc'.export_usage = acc.export_usage + generationOf iv ∧
    acc'.peak_import = acc.peak_import + (if tagOf iv = "PEAK" then consumptionOf iv else 0) ∧
    acc'.offpeak_import
      = acc.offpeak_import + (if tagOf iv = "OFFPEAK" then consumptionOf iv else 0) ∧
    acc'.shoulder_import
      = acc.shoulder_import + (if tagOf iv = "SHOULDER" then consumptionOf iv else 0) ∧
    acc'.peak_export = acc.peak_export + (if tagOf iv = "PEAK" then generationOf iv else 0) ∧
    acc'.offpeak_export
      = acc.offpeak_export + (if tagOf iv = "OFFPEAK" then generationOf iv else 0) ∧
    acc'.shoulder_export
      = acc.shoulder_export + (if tagOf iv = "SHOULDER" then generationOf iv else 0) := by
  cases iv with
  | dict kvs =>
    rw [stepInterval] at h
    cases hceq : floatOf (pyGetD kvs "consumptionKwh" (.num 0)) with
    | none => rw [hceq] at h; simp at h
    | some c =>
    cases hgeq : floatOf (pyGetD kvs "generationKwh" (.num 0)) with
    | none => rw [hceq, hgeq] at h; simp at h
    | some g =>
    cases hteq : upperTag kvs with
    | none => rw [hceq, hgeq, hteq] at h; simp at h
    | some period =>
    simp only [hceq, hgeq, hteq] at h
    have hcv : consumptionOf (.dict kvs) = c := by simp [consumptionOf, hceq]
    have hgv : generationOf (.dict kvs) = g := by simp [generationOf, hgeq]
    have htv : tagOf (.dict kvs) = period := by simp [tagOf, hteq]
    rw [hcv, hgv, htv]
    cases hdd : pyGetD kvs "demandDetail" (.dict []) with
    | dict dkvs =>
      simp only [hdd] at h
      cases hdk : floatOf (pyGetD dkvs "demandKw" (.num 0)) with
      | none => rw [hdk] at h; simp at h
      | some dk =>
        rw [hdk] at h
        have hx := (Option.some.inj h).symm
        subst hx
        split_ifs with h1 h2 h3 h4 h5 h6 <;> simp_all [ratAdd_eq]
    | none =>
      simp only [hdd] at h
      have hx := (Option.some.inj h).symm
      subst hx
      split_ifs with h1 h2 h3 <;> simp_all [ratAdd_eq]
    | bool b =>
      simp only [hdd] at h
      have hx := (Option.some.inj h).symm
      subst hx
      split_ifs with h1 h2 h3 <;> simp_all [ratAdd_eq]
    | num q =>
      simp only [hdd] at h
      have hx := (Option.some.inj h).symm
      subst hx
      split_ifs with h1 h2 h3 <;> simp_all [ratAdd_eq]
    | str s =>
      simp only [hdd] at h
      have hx := (Option.some.inj h).symm
      subst hx
      split_ifs with h1 h2 h3 <;> simp_all [ratAdd_eq]
    | list xs =>
      simp only [hdd] at h
      have hx := (Option.some.inj h).symm
      subst hx
      split_ifs with h1 h2 h3 <;> simp_all [ratAdd_eq]
  | none =>
    have hx := (Option.some.inj h).symm
    subst hx
    simp [consumptionOf, generationOf, tagOf]
  | bool b =>
    have hx := (Option.some.inj h).symm
    subst hx
    simp [consumptionOf, generationOf, tagOf]
  | num q =>
    have hx := (Option.some.inj h).symm
    subst hx
    simp [consumptionOf, generationOf, tagOf]
  | str s =>
    have hx := (Option.some.inj h).symm
    subst hx
    simp [consumptionOf, generationOf, tagOf]
  | list xs =>
    have hx := (Option.some.inj h).symm
    subst hx
    simp [consumptionOf, generationOf, tagOf]

/-- The interval loop accumulates exactly the list sums: totals are the
sums of interval consumption/generation, and each tariff-period
accumulator sums only the intervals whose upper-cased tag matches. -/
theorem processIntervals_sums :
    ∀ (hs : List PyVal) (acc acc' : IntervalAcc),
      processIntervals acc hs = some acc' →
      acc'.import_usage = acc.import_usage + importSum hs ∧
      acc'.export_usage = acc.export_usage + exportSum hs ∧
      acc'.peak_import = acc.peak_import + periodImportSum "PEAK" hs ∧
      acc'.offpeak_import = acc.offpeak_import + periodImportSum "OFFPEAK" hs ∧
      acc'.shoulder_import = acc.shoulder_import + periodImportSum "SHOULDER" hs ∧
      acc'.peak_export = acc.peak_export + periodExportSum "PEAK" hs ∧
      acc'.offpeak_export = acc.offpeak_export + periodExportSum "OFFPEAK" hs ∧
      acc'.shoulder_export = acc.shoulder_export + periodExportSum "SHOULDER" hs
  | [], acc, acc', h => by
    rw [processIntervals] at h
    have hx := (Option.some.inj h).symm
    subst hx
    simp [importSum, exportSum, periodImportSum, periodExportSum]
  | iv :: rest, acc, acc', h => by
    rw [processIntervals] at h
    cases hst : stepInterval acc iv with
    | none => rw [hst] at h; cases h
    | some acc1 =>
      rw [hst] at h
      have ih := processIntervals_sums rest acc1 acc' h
      have hstep := stepInterval_sums hst
      refine ⟨?_, ?_, ?_, ?_, ?_, ?_, ?_, ?_⟩
      · rw [ih.1, hstep.1, importSum_cons]; ring
      · rw [ih.2.1, hstep.2.1, exportSum_cons]; ring
      · rw [ih.2.2.1, hstep.2.2.1, periodImportSum_cons]; ring
      · rw [ih.2.2.2.1, hstep.2.2.2.1, periodImportSum_cons]; ring
      · rw [ih.2.2.2.2.1, hstep.2.2.2.2.1, periodImportSum_cons]; ring
      · rw [ih.2.2.2.2.2.1, hstep.2.2.2.2.2.1, periodExportSum_cons]; ring
      · rw [ih.2.2.2.2.2.2.1, hstep.2.2.2.2.2.2.1, periodExportSum_cons]; ring
      · rw [ih.2.2.2.2.2.2.2, hstep.2.2.2.2.2.2.2, periodExportSum_cons]; ring

/-- C1: for every normalized entry, the import/export totals are the
(rounded) sums of interval consumption/generation, each tariff-period
field is the (rounded) sum over only the intervals whose tag matches that
period case-insensitively — so an interval with an unrecognized or absent
tag, whose upper-cased tag is none of `PEAK`/`OFFPEAK`/`SHOULDER`, is
excluded from every period filter and contributes to no breakdown — and
on the two-interval entry (A: 1.0/0.2 PEAK, B: 2.0/0.0 OFFPEAK) the
fields take exactly the claimed values. -/
theorem claim_c1 (kvs : PyDict) (hs : List PyVal) (e : DailyEntry)
    (hhalf : pyGet kvs "halfHours" = some (.list hs))
    (hnorm : normalizeUsageEntry (.dict kvs) = some e) :
    (e.import_usage = pyRound 3 (importSum hs) ∧
     e.export_usage = pyRound 3 (exportSum hs) ∧
     e.usage = pyRound 3 (importSum hs - exportSum hs) ∧
     e.peak_import_usage = pyRound 3 (periodImportSum "PEAK" hs) ∧
     e.offpeak_import_usage = pyRound 3 (periodImportSum "OFFPEAK" hs) ∧
     e.shoulder_import_usage = pyRound 3 (periodImportSum "SHOULDER" hs) ∧
     e.peak_export_usage = pyRound 3 (periodExportSum "PEAK" hs) ∧
     e.offpeak_export_usage = pyRound 3 (periodExportSum "OFFPEAK" hs) ∧
     e.shoulder_export_usage = pyRound 3 (periodExportSum "SHOULDER" hs)) ∧
    (hs = [intervalA, intervalB] →
      e.import_usage = 3 ∧ e.export_usage = mkRat 1 5 ∧ e.usage = mkRat 14 5 ∧
      e.peak_import_usage = 1 ∧ e.offpeak_import_usage = 2 ∧
      e.peak_export_usage = mkRat 1 5 ∧ e.offpeak_export_usage = 0 ∧
      e.shoulder_import_usage = 0) := by
  have hgetd : pyGetD kvs "halfHours" (.list []) = .list hs := by simp [pyGetD, hhalf]
  have hacc0 : halfHoursAcc kvs = processIntervals initAcc hs := by
    rw [halfHoursAcc, hgetd]
  rw [normalizeUsageEntry] at hnorm
  cases haccv : halfHoursAcc kvs with
  | none => rw [haccv] at hnorm; cases hnorm
  | some acc =>
  simp only [haccv] at hnorm
  cases hcd : floatOf (pyGetD kvs "consumptionDollar" (.num 0)) with
  | none => simp [hcd] at hnorm
  | some importCost =>
  cases hgd : floatOf (pyGetD kvs "generationDollar" (.num 0)) with
  | none => simp [hcd, hgd] at hnorm
  | some generationDollar =>
  cases hcarb : floatOf (pyGetD kvs "carbonEmissionTonne" (.num 0)) with
  | none => simp [hcd, hgd, hcarb] at hnorm
  | some carbonEmission =>
  cases hmdv : dailyMaxDemand kvs acc with
  | none => simp [hcd, hgd, hcarb, hmdv] at hnorm
  | some md =>
  obtain ⟨mdk, mdt⟩ := md
  simp only [hcd, hgd, hcarb, hmdv] at hnorm
  have he := (Option.some.inj hnorm).symm
  subst he
  have hsums := processIntervals_sums hs initAcc acc (by rw [← hacc0]; exact haccv)
  have h1 : acc.import_usage = importSum hs := by rw [hsums.1]; simp [initAcc]
  have h2 : acc.export_usage = exportSum hs := by rw [hsums.2.1]; simp [initAcc]
  have h3 : acc.peak_import = periodImportSum "PEAK" hs := by
    rw [hsums.2.2.1]; simp [initAcc]
  have h4 : acc.offpeak_import = periodImportSum "OFFPEAK" hs := by
    rw [hsums.2.2.2.1]; simp [initAcc]
  have h5 : acc.shoulder_import = periodImportSum "SHOULDER" hs := by
    rw [hsums.2.2.2.2.1]; simp [initAcc]
  have h6 : acc.peak_export = periodExportSum "PEAK" hs := by
    rw [hsums.2.2.2.2.2.1]; simp [initAcc]
  have h7 : acc.offpeak_export = periodExportSum "OFFPEAK" hs := by
    rw [hsums.2.2.2.2.2.2.1]; simp [initAcc]
  have h8 : acc.shoulder_export = periodExportSum "SHOULDER" hs := by
    rw [hsums.2.2.2.2.2.2.2]; simp [initAcc]
  have hgen :
      (buildEntry (pyGetD kvs "usageDate" (.str "")) acc importCost generationDollar
          carbonEmission mdk mdt).import_usage = pyRound 3 (importSum hs) ∧
      (buildEntry (pyGetD kvs "usageDate" (.str "")) acc importCost generationDollar
          carbonEmission mdk mdt).export_usage = pyRound 3 (exportSum hs) ∧
      (buildEntry (pyGetD kvs "usageDate" (.str "")) acc importCost generationDollar
          carbonEmission mdk mdt).usage = pyRound 3 (importSum hs - exportSum hs) ∧
      (buildEntry (pyGetD kvs "usageDate" (.str "")) acc importCost generationDollar
          carbonEmission mdk mdt).peak_import_usage
        = pyRound 3 (periodImportSum "PEAK" hs) ∧
      (buildEntry (pyGetD kvs "usageDate" (.str "")) acc importCost generationDollar
          carbonEmission mdk mdt).offpeak_import_usage
        = pyRound 3 (periodImportSum "OFFPEAK" hs) ∧
      (buildEntry (pyGetD kvs "usageDate" (.str "")) acc importCost generationDollar
          carbonEmission mdk mdt).shoulder_import_usage
        = pyRound 3 (periodImportSum "SHOULDER" hs) ∧
      (buildEntry (pyGetD kvs "usageDate" (.str "")) acc importCost generationDollar
          carbonEmission mdk mdt).peak_export_usage
        = pyRound 3 (periodExportSum "PEAK" hs) ∧
      (buildEntry (pyGetD kvs "usageDate" (.str "")) acc importCost generationDollar
          carbonEmission mdk mdt).offpeak_export_usage
        = pyRound 3 (periodExportSum "OFFPEAK" hs) ∧
      (buildEntry (pyGetD kvs "usageDate" (.str "")) acc importCost generationDollar
          carbonEmission mdk mdt).shoulder_export_usage
        = pyRound 3 (periodExportSum "SHOULDER" hs) := by
    refine ⟨?_, ?_, ?_, ?_, ?_, ?_, ?_, ?_, ?_⟩ <;>
      simp [buildEntry, ratSub_eq, h1, h2, h3, h4, h5, h6, h7, h8]
  refine ⟨hgen, ?_⟩
  intro hseq
  subst hseq
  have cA : consumptionOf intervalA = 1 := by decide
  have cB : consumptionOf intervalB = 2 := by decide
  have gA : generationOf intervalA = mkRat 1 5 := by decide
  have gB : generationOf intervalB = 0 := by decide
  have tA : tagOf intervalA = "PEAK" := by decide
  have tB : tagOf intervalB = "OFFPEAK" := by decide
  have eimp : importSum [intervalA, intervalB] = 3 := by
    rw [importSum_cons, importSum_cons, cA, cB]
    norm_num [importSum]
  have eexp : exportSum [intervalA, intervalB] = mkRat 1 5 := by
    rw [exportSum_cons, exportSum_cons, gA, gB]
    norm_num [exportSum]
  have epi : periodImportSum "PEAK" [intervalA, intervalB] = 1 := by
    rw [periodImportSum_cons, periodImportSum_cons, tA, tB,
        if_pos rfl, if_neg (by decide), cA]
    norm_num [periodImportSum]
  have eoi : periodImportSum "OFFPEAK" [intervalA, intervalB] = 2 := by
    rw [periodImportSum_cons, periodImportSum_cons, tA, tB,
        if_neg (by decide), if_pos rfl, cB]
    norm_num [periodImportSum]
  have esi : periodImportSum "SHOULDER" [intervalA, intervalB] = 0 := by
    rw [periodImportSum_cons, periodImportSum_cons, tA, tB,
        if_neg (by decide), if_neg (by decide)]
    norm_num [periodImportSum]
  have epe : periodExportSum "PEAK" [intervalA, intervalB] = mkRat 1 5 := by
    rw [periodExportSum_cons, periodExportSum_cons, tA, tB,
        if_pos rfl, if_neg (by decide), gA]
    norm_num [periodExportSum]
  have eoe : periodExportSum "OFFPEAK" [intervalA, intervalB] = 0 := by
    rw [periodExportSum_cons, periodExportSum_cons, tA, tB,
        if_neg (by decide), if_pos rfl, gB]
    norm_num [periodExportSum]
  refine ⟨?_, ?_, ?_, ?_, ?_, ?_, ?_, ?_⟩
  · rw [hgen.1, eimp]; decide
  · rw [hgen.2.1, eexp]; decide
  · have hsub : (3 : ℚ) - mkRat 1 5 = mkRat 14 5 := by norm_num [Rat.mkRat_eq_div]
    rw [hgen.2.2.1, eimp, eexp, hsub]; decide
  · rw [hgen.2.2.2.1, epi]; decide
  · rw [hgen.2.2.2.2.1, eoi]; decide
  · rw [hgen.2.2.2.2.2.2.1, epe]; decide
  · rw [hgen.2.2.2.2.2.2.2.1, eoe]; decide
  · rw [hgen.2.2.2.2.2.1, esi]; decide

/-- Witness for C1: the two-interval entry evaluates to exactly the
claimed aggregates. -/
theorem claim_c1_witness :
    normalizeUsageEntry (.dict entryABkvs) = some entryABResult ∧
    entryABResult.import_usage = 3 ∧ entryABResult.export_usage = mkRat 1 5 ∧
    entryABResult.usage = mkRat 14 5 ∧ entryABResult.peak_import_usage = 1 ∧
    entryABResult.offpeak_import_usage = 2 ∧
    entryABResult.peak_export_usage = mkRat 1 5 ∧
    entryABResult.offpeak_export_usage = 0 ∧
    entryABResult.shoulder_import_usage = 0 :=
  have h := (claim_c1 entryABkvs [intervalA, intervalB] entryABResult rfl rfl).2 rfl
  ⟨rfl, h.1, h.2.1, h.2.2.1, h.2.2.2.1, h.2.2.2.2.1, h.2.2.2.2.2.1,
   h.2.2.2.2.2.2.1, h.2.2.2.2.2.2.2⟩

/-!
## Claim C9 — partial-failure isolation
-/

theorem lookup_append_single {β : Type} (k : String) (v : β) (t : String) :
    ∀ m : List (String × β),
      (List.lookup t (m ++ [(k, v)])).isSome = true ↔
        ((List.lookup t m).isSome = true ∨ t = k)
  | [] => by
    constructor
    · intro h
      by_cases ht : t = k
      · exact Or.inr ht
      · simp [List.lookup, beq_false_of_ne ht] at h
    · intro h
      rcases h with h | rfl
      · simp [List.lookup] at h
      · simp [List.lookup]
  | (k', v') :: rest => by
    by_cases ht : t = k'
    · subst ht
      simp [List.lookup]
    · simp only [List.cons_append, List.lookup, beq_false_of_ne ht]
      exact lookup_append_single k v t rest

theorem lookup_map_replace (k : String) (v : PyVal) (t : String) :
    ∀ m : PyDict,
      (List.lookup t (m.map (fun p => if p.1 = k then (k, v) else p))).isSome
        = (List.lookup t m).isSome
  | [] => rfl
  | (k', v') :: rest => by
    have ih := lookup_map_replace k v t rest
    by_cases hk : k' = k
    · subst hk
      have hhead : (if (k', v').1 = k' then (k', v) else (k', v')) = (k', v) := by simp
      rw [List.map_cons, hhead]
      by_cases ht : t = k'
      · subst ht
        simp [List.lookup]
      · simp only [List.lookup, beq_false_of_ne ht]
        exact ih
    · have hhead : (if (k', v').1 = k then (k, v) else (k', v')) = (k', v') := by
        simp [hk]
      rw [List.map_cons, hhead]
      by_cases ht : t = k'
      · subst ht
        simp [List.lookup]
      · simp only [List.lookup, beq_false_of_ne ht]
        exact ih

/-- Storing under a key makes lookups succeed exactly for that key and
the keys already present. -/
theorem pyGet_pyDictSet (m : PyDict) (k : String) (v : PyVal) (t : String) :
    (pyGet (pyDictSet m k v) t).isSome = true ↔
      ((pyGet m t).isSome = true ∨ t = k) := by
  rw [pyDictSet]
  by_cases hm : (pyGet m k).isSome
  · rw [if_pos hm]
    show (List.lookup t (m.map _)).isSome = true ↔ _
    rw [lookup_map_replace]
    constructor
    · exact Or.inl
    · rintro (h | rfl)
      · exact h
      · exact hm
  · rw [if_neg hm]
    exact lookup_append_single k v t m

theorem isEmpty_false_iff_lookup {β : Type} :
    ∀ m : List (String × β),
      m.isEmpty = false ↔ ∃ t, (List.lookup t m).isSome = true
  | [] => by simp
  | (k, v) :: rest => by
    constructor
    · intro _
      exact ⟨k, by simp [List.lookup]⟩
    · intro _
      rfl

/-- The service loop over a property: when every failing considered
service fails with a caught kind, the loop completes and its result holds
an entry under a service type exactly when the accumulator already did or
some considered service of that type fetched successfully. -/
theorem processServices_ok (cfgServices : List String)
    (fetch : String → Except PyErr PyVal) :
    ∀ (svcs : List ServiceRec) (acc : PyDict),
      (∀ s ∈ svcs, consideredService cfgServices s = true →
        ∀ e, fetch s.consumer_number = .error e → caughtPerService e = true) →
      ∃ m, processServices cfgServices fetch acc svcs = .ok m ∧
        ∀ t, (pyGet m t).isSome = true ↔
          ((pyGet acc t).isSome = true ∨
           ∃ s ∈ svcs, consideredService cfgServices s = true ∧
             isOkB (fetch s.consumer_number) = true ∧ s.stype = t)
  | [], acc, _ => ⟨acc, rfl, by simp⟩
  | s :: rest, acc, h => by
    have hrest : ∀ s' ∈ rest, consideredService cfgServices s' = true →
        ∀ e, fetch s'.consumer_number = .error e → caughtPerService e = true :=
      fun s' hs' => h s' (List.mem_cons_of_mem _ hs')
    cases hcons : consideredService cfgServices s with
    | false =>
      obtain ⟨m, hm, hiff⟩ := processServices_ok cfgServices fetch rest acc hrest
      refine ⟨m, ?_, ?_⟩
      · simp only [processServices, hcons, Bool.not_false, if_true]
        exact hm
      · intro t
        rw [hiff t]
        constructor
        · rintro (ha | ⟨s', hs', hok, hfetch, hst⟩)
          · exact Or.inl ha
          · exact Or.inr ⟨s', List.mem_cons_of_mem _ hs', hok, hfetch, hst⟩
        · rintro (ha | ⟨s', hs', hok, hfetch, hst⟩)
          · exact Or.inl ha
          · rcases List.mem_cons.mp hs' with rfl | hs'
            · rw [hcons] at hok
              cases hok
            · exact Or.inr ⟨s', hs', hok, hfetch, hst⟩
    | true =>
      cases hf : fetch s.consumer_number with
      | ok doc =>
        obtain ⟨m, hm, hiff⟩ :=
          processServices_ok cfgServices fetch rest (pyDictSet acc s.stype doc) hrest
        refine ⟨m, ?_, ?_⟩
        · simp only [processServices, hcons, hf, Bool.not_true, Bool.false_eq_true,
            if_false]
          exact hm
        · intro t
          rw [hiff t, pyGet_pyDictSet]
          constructor
          · rintro ((ha | rfl) | ⟨s', hs', hok, hfetch, hst⟩)
            · exact Or.inl ha
            · exact Or.inr ⟨s, List.mem_cons_self _ _, hcons, by rw [hf]; rfl, rfl⟩
            · exact Or.inr ⟨s', List.mem_cons_of_mem _ hs', hok, hfetch, hst⟩
          · rintro (ha | ⟨s', hs', hok, hfetch, hst⟩)
            · exact Or.inl (Or.inl ha)
            · rcases List.mem_cons.mp hs' with rfl | hs'
              · exact Or.inl (Or.inr hst.symm)
              · exact Or.inr ⟨s', hs', hok, hfetch, hst⟩
      | error e =>
        have hcaught : caughtPerService e = true := h s (List.mem_cons_self _ _) hcons e hf
        obtain ⟨m, hm, hiff⟩ := processServices_ok cfgServices fetch rest acc hrest
        refine ⟨m, ?_, ?_⟩
        · simp only [processServices, hcons, hf, hcaught, Bool.not_true,
            Bool.false_eq_true, if_false, if_true]
          exact hm
        · intro t
          rw [hiff t]
          constructor
          · rintro (ha | ⟨s', hs', hok, hfetch, hst⟩)
            · exact Or.inl ha
            · exact Or.inr ⟨s', List.mem_cons_of_mem _ hs', hok, hfetch, hst⟩
          · rintro (ha | ⟨s', hs', hok, hfetch, hst⟩)
            · exact Or.inl ha
            · rcases List.mem_cons.mp hs' with rfl | hs'
              · rw [hf] at hfetch
                cases hfetch
              · exact Or.inr ⟨s', hs', hok, hfetch, hst⟩

/-- The property loop: when every failing considered service of a
selected property fails with a caught kind, the loop completes and its
result holds an entry for a property id exactly when the accumulator
already did or some selected property with that id has a considered
service that fetched successfully. -/
theorem collectProperties_ok (selected cfgServices : List String)
    (fetch : String → Except PyErr PyVal) :
    ∀ (props : List PropertyRec) (acc : List (String × PyDict)),
      (∀ p ∈ props, selected.contains p.pid = true →
        ∀ s ∈ p.services, consideredService cfgServices s = true →
          ∀ e, fetch s.consumer_number = .error e → caughtPerService e = true) →
      ∃ res, collectProperties selected cfgServices fetch acc props = .ok res ∧
        ∀ pid, (List.lookup pid res).isSome = true ↔
          ((List.lookup pid acc).isSome = true ∨
           ∃ p ∈ props, p.pid = pid ∧ selected.contains p.pid = true ∧
             ∃ s ∈ p.services, consideredService cfgServices s = true ∧
               isOkB (fetch s.consumer_number) = true)
  | [], acc, _ => ⟨acc, rfl, by simp⟩
  | p :: rest, acc, h => by
    have hrest : ∀ p' ∈ rest, selected.contains p'.pid = true →
        ∀ s ∈ p'.services, consideredService cfgServices s = true →
          ∀ e, fetch s.consumer_number = .error e → caughtPerService e = true :=
      fun p' hp' => h p' (List.mem_cons_of_mem _ hp')
    cases hsel : selected.contains p.pid with
    | false =>
      obtain ⟨res, hres, hiff⟩ := collectProperties_ok selected cfgServices fetch rest acc hrest
      refine ⟨res, ?_, ?_⟩
      · simp only [collectProperties, hsel, Bool.not_false, if_true]
        exact hres
      · intro pid
        rw [hiff pid]
        constructor
        · rintro (ha | ⟨p', hp', hpid, hpsel, hsvc⟩)
          · exact Or.inl ha
          · exact Or.inr ⟨p', List.mem_cons_of_mem _ hp', hpid, hpsel, hsvc⟩
        · rintro (ha | ⟨p', hp', hpid, hpsel, hsvc⟩)
          · exact Or.inl ha
          · rcases List.mem_cons.mp hp' with rfl | hp'
            · rw [hsel] at hpsel
              cases hpsel
            · exact Or.inr ⟨p', hp', hpid, hpsel, hsvc⟩
    | true =>
      obtain ⟨m, hm, hmiff⟩ :=
        processServices_ok cfgServices fetch p.services []
          (h p (List.mem_cons_self _ _) hsel)
      have hmiff' : ∀ t, (pyGet m t).isSome = true ↔
          ∃ s ∈ p.services, consideredService cfgServices s = true ∧
            isOkB (fetch s.consumer_number) = true ∧ s.stype = t := by
        intro t
        rw [hmiff t]
        constructor
        · rintro (ha | hx)
          · cases ha
          · exact hx
        · exact Or.inr
      cases hne : m.isEmpty with
      | true =>
        have hnosvc : ¬ ∃ s ∈ p.services, consideredService cfgServices s = true ∧
            isOkB (fetch s.consumer_number) = true := by
          rintro ⟨s, hs, hok, hfetch⟩
          have : (pyGet m s.stype).isSome = true :=
            (hmiff' s.stype).mpr ⟨s, hs, hok, hfetch, rfl⟩
          have hne' : m.isEmpty = false := by
            cases m with
            | nil => rw [pyGet] at this; cases this
            | cons a as => rfl
          rw [hne] at hne'
          cases hne'
        obtain ⟨res, hres, hiff⟩ :=
          collectProperties_ok selected cfgServices fetch rest acc hrest
        refine ⟨res, ?_, ?_⟩
        · simp only [collectProperties, hsel, hm, hne, Bool.not_true,
            Bool.false_eq_true, if_false, if_true]
          exact hres
        · intro pid
          rw [hiff pid]
          constructor
          · rintro (ha | ⟨p', hp', hpid, hpsel, hsvc⟩)
            · exact Or.inl ha
            · exact Or.inr ⟨p', List.mem_cons_of_mem _ hp', hpid, hpsel, hsvc⟩
          · rintro (ha | ⟨p', hp', hpid, hpsel, hsvc⟩)
            · exact Or.inl ha
            · rcases List.mem_cons.mp hp' with rfl | hp'
              · exact absurd hsvc hnosvc
              · exact Or.inr ⟨p', hp', hpid, hpsel, hsvc⟩
      | false =>
        have hsome : ∃ s ∈ p.services, consideredService cfgServices s = true ∧
            isOkB (fetch s.consumer_number) = true := by
          obtain ⟨t, ht⟩ := (isEmpty_false_iff_lookup m).mp hne
          obtain ⟨s, hs, hok, hfetch, _⟩ := (hmiff' t).mp ht
          exact ⟨s, hs, hok, hfetch⟩
        obtain ⟨res, hres, hiff⟩ :=
          collectProperties_ok selected cfgServices fetch rest (acc ++ [(p.pid, m)]) hrest
        refine ⟨res, ?_, ?_⟩
        · simp only [collectProperties, hsel, hm, hne, Bool.not_true,
            Bool.false_eq_true, if_false, if_true]
          exact hres
        · intro pid
          rw [hiff pid, lookup_append_single]
          constructor
          · rintro ((ha | rfl) | ⟨p', hp', hpid, hpsel, hsvc⟩)
            · exact Or.inl ha
            · exact Or.inr ⟨p, List.mem_cons_self _ _, rfl, hsel, hsome⟩
            · exact Or.inr ⟨p', List.mem_cons_of_mem _ hp', hpid, hpsel, hsvc⟩
          · rintro (ha | ⟨p', hp', hpid, hpsel, hsvc⟩)
            · exact Or.inl (Or.inl ha)
            · rcases List.mem_cons.mp hp' with rfl | hp'
              · exact Or.inl (Or.inr hpid.symm)
              · exact Or.inr ⟨p', hp', hpid, hpsel, hsvc⟩

/-- Converse direction for the service loop: if it completed without
raising, then every considered service that failed did so with an
exception of a caught kind. -/
theorem processServices_isOk_caught (cfgServices : List String)
    (fetch : String → Except PyErr PyVal) :
    ∀ (svcs : List ServiceRec) (acc m : PyDict),
      processServices cfgServices fetch acc svcs = .ok m →
      ∀ s ∈ svcs, consideredService cfgServices s = true →
        ∀ e, fetch s.consumer_number = .error e → caughtPerService e = true
  | [], _, _, _ => fun s hs => absurd hs (List.not_mem_nil s)
  | s0 :: rest, acc, m, h => by
    intro s hs hcons e hf
    rcases List.mem_cons.mp hs with rfl | hmem
    · simp only [processServices, hcons, Bool.not_true, Bool.false_eq_true, if_false, hf] at h
      cases hcaught : caughtPerService e with
      | true => rfl
      | false =>
        simp only [hcaught, Bool.false_eq_true, if_false] at h
        cases h
    · cases hcons0 : consideredService cfgServices s0 with
      | false =>
        simp only [processServices, hcons0, Bool.not_false, if_true] at h
        exact processServices_isOk_caught cfgServices fetch rest acc m h s hmem hcons e hf
      | true =>
        cases hf0 : fetch s0.consumer_number with
        | ok doc =>
          simp only [processServices, hcons0, hf0, Bool.not_true, Bool.false_eq_true,
            if_false] at h
          exact processServices_isOk_caught cfgServices fetch rest
            (pyDictSet acc s0.stype doc) m h s hmem hcons e hf
        | error e0 =>
          cases hc0 : caughtPerService e0 with
          | true =>
            simp only [processServices, hcons0, hf0, hc0, Bool.not_true, Bool.false_eq_true,
              if_false, if_true] at h
            exact processServices_isOk_caught cfgServices fetch rest acc m h s hmem hcons e hf
          | false =>
            simp only [processServices, hcons0, hf0, hc0, Bool.not_true, Bool.false_eq_true,
              if_false] at h
            cases h

/-- Converse direction for the property loop: if it completed without
raising, then every considered service of every selected property that
failed did so with an exception of a caught kind. -/
theorem collectProperties_isOk_caught (selected cfgServices : List String)
    (fetch : String → Except PyErr PyVal) :
    ∀ (props : List PropertyRec) (acc res : List (String × PyDict)),
      collectProperties selected cfgServices fetch acc props = .ok res →
      ∀ p ∈ props, selected.contains p.pid = true →
        ∀ s ∈ p.services, consideredService cfgServices s = true →
          ∀ e, fetch s.consumer_number = .error e → caughtPerService e = true
  | [], _, _, _ => fun p hp => absurd hp (List.not_mem_nil p)
  | p0 :: rest, acc, res, h => by
    intro p hp hsel s hs hcons e hf
    rcases List.mem_cons.mp hp with rfl | hmem
    · cases hm : processServices cfgServices fetch [] p.services with
      | error e0 =>
        simp only [collectProperties, hsel, hm, Bool.not_true, Bool.false_eq_true,
          if_false] at h
        cases h
      | ok m =>
        exact processServices_isOk_caught cfgServices fetch p.services [] m hm s hs hcons e hf
    · cases hsel0 : selected.contains p0.pid with
      | false =>
        simp only [collectProperties, hsel0, Bool.not_false, if_true] at h
        exact collectProperties_isOk_caught selected cfgServices fetch rest acc res h
          p hmem hsel s hs hcons e hf
      | true =>
        cases hm : processServices cfgServices fetch [] p0.services with
        | error e0 =>
          simp only [collectProperties, hsel0, hm, Bool.not_true, Bool.false_eq_true,
            if_false] at h
          cases h
        | ok m =>
          cases hne : m.isEmpty with
          | true =>
            simp only [collectProperties, hsel0, hm, hne, Bool.not_true, Bool.false_eq_true,
              if_false, if_true] at h
            exact collectProperties_isOk_caught selected cfgServices fetch rest acc res h
              p hmem hsel s hs hcons e hf
          | false =>
            simp only [collectProperties, hsel0, hm, hne, Bool.not_true, Bool.false_eq_true,
              if_false] at h
            exact collectProperties_isOk_caught selected cfgServices fetch rest
              (acc ++ [(p0.pid, m)]) res h p hmem hsel s hs hcons e hf

/-- C9 (amended): the per-service handler catches exactly
`RedEnergyAPIError` (with its `RedEnergyAuthError` subclass) and
`DataValidationError`. When every per-service fetch/validation failure is
of one of those kinds, the bulk collection pass never aborts: the
property loop completes, the only possible failure of the update is the
no-data `UpdateFailed` — raised exactly when no selected property has any
considered service that fetched successfully — and the returned map holds
an entry for a property id exactly when some selected property with that
id had a successful service, every failed service (and every property
with no usable service) being omitted. But when some selected property
has a considered service failing with any other exception kind (e.g. the
HTTP error that `raise_for_status()` raises inside `get_usage_data`), the
exception escapes the per-service handler and the whole update aborts
with an `UpdateFailed`, no matter how many other services succeeded. -/
theorem claim_c9 (props : List PropertyRec) (selected cfgServices : List String)
    (fetch : String → Except PyErr PyVal) :
    ((∀ p ∈ props, selected.contains p.pid = true →
        ∀ s ∈ p.services, consideredService cfgServices s = true →
          ∀ e, fetch s.consumer_number = .error e → caughtPerService e = true) →
      (∃ res, collectProperties selected cfgServices fetch [] props = .ok res) ∧
      (asyncUpdateData props selected cfgServices fetch
          = .error "No usage data retrieved for any configured services" ↔
        ¬ ∃ p ∈ props, selected.contains p.pid = true ∧
          ∃ s ∈ p.services, consideredService cfgServices s = true ∧
            isOkB (fetch s.consumer_number) = true) ∧
      (∀ msg, asyncUpdateData props selected cfgServices fetch = .error msg →
        msg = "No usage data retrieved for any configured services") ∧
      (∀ res, asyncUpdateData props selected cfgServices fetch = .ok res →
        ∀ pid, (List.lookup pid res).isSome = true ↔
          ∃ p ∈ props, p.pid = pid ∧ selected.contains p.pid = true ∧
            ∃ s ∈ p.services, consideredService cfgServices s = true ∧
              isOkB (fetch s.consumer_number) = true)) ∧
    ((∃ p ∈ props, selected.contains p.pid = true ∧
        ∃ s ∈ p.services, consideredService cfgServices s = true ∧
          ∃ e, fetch s.consumer_number = .error e ∧ caughtPerService e = false) →
      ∃ msg, asyncUpdateData props selected cfgServices fetch = .error msg) := by
  constructor
  · intro h
    obtain ⟨res0, hres0, hiff0⟩ :=
      collectProperties_ok selected cfgServices fetch props [] h
    have hiff0' : ∀ pid, (List.lookup pid res0).isSome = true ↔
        ∃ p ∈ props, p.pid = pid ∧ selected.contains p.pid = true ∧
          ∃ s ∈ p.services, consideredService cfgServices s = true ∧
            isOkB (fetch s.consumer_number) = true := by
      intro pid
      rw [hiff0 pid]
      constructor
      · rintro (ha | hx)
        · cases ha
        · exact hx
      · exact Or.inr
    have hexiff : res0.isEmpty = false ↔
        ∃ p ∈ props, selected.contains p.pid = true ∧
          ∃ s ∈ p.services, consideredService cfgServices s = true ∧
            isOkB (fetch s.consumer_number) = true := by
      rw [isEmpty_false_iff_lookup]
      constructor
      · rintro ⟨t, ht⟩
        obtain ⟨p, hp, _, hpsel, hsvc⟩ := (hiff0' t).mp ht
        exact ⟨p, hp, hpsel, hsvc⟩
      · rintro ⟨p, hp, hpsel, hsvc⟩
        exact ⟨p.pid, (hiff0' p.pid).mpr ⟨p, hp, rfl, hpsel, hsvc⟩⟩
    refine ⟨⟨res0, hres0⟩, ?_, ?_, ?_⟩
    · cases hne : res0.isEmpty with
      | true =>
        have hno : ¬ ∃ p ∈ props, selected.contains p.pid = true ∧
            ∃ s ∈ p.services, consideredService cfgServices s = true ∧
              isOkB (fetch s.consumer_number) = true := by
          intro hex
          rw [← hexiff] at hex
          rw [hne] at hex
          cases hex
        simp only [asyncUpdateData, hres0, hne, if_true]
        exact ⟨fun _ => hno, fun _ => trivial⟩
      | false =>
        have hyes := hexiff.mp hne
        simp only [asyncUpdateData, hres0, hne, Bool.false_eq_true, if_false]
        constructor
        · intro heq
          cases heq
        · intro hno
          exact absurd hyes hno
    · intro msg heq
      cases hne : res0.isEmpty with
      | true =>
        simp only [asyncUpdateData, hres0, hne, if_true] at heq
        cases heq
        rfl
      | false =>
        simp only [asyncUpdateData, hres0, hne, Bool.false_eq_true, if_false] at heq
        cases heq
    · intro res heq
      cases hne : res0.isEmpty with
      | true =>
        simp only [asyncUpdateData, hres0, hne, if_true] at heq
        cases heq
      | false =>
        simp only [asyncUpdateData, hres0, hne, Bool.false_eq_true, if_false] at heq
        cases heq
        exact hiff0'
  · rintro ⟨p, hp, hsel, s, hs, hcons, e, hf, hnc⟩
    cases hc : collectProperties selected cfgServices fetch [] props with
    | ok res =>
      have hct := collectProperties_isOk_caught selected cfgServices fetch props [] res hc
        p hp hsel s hs hcons e hf
      rw [hnc] at hct
      cases hct
    | error e0 =>
      cases e0 with
      | redEnergyAuthError m =>
        exact ⟨"Authentication failed", by simp only [asyncUpdateData, hc]⟩
      | redEnergyAPIError m =>
        exact ⟨"API error", by simp only [asyncUpdateData, hc]⟩
      | dataValidationError m =>
        exact ⟨"Unexpected error", by simp only [asyncUpdateData, hc]⟩
      | httpStatusError st =>
        exact ⟨"Unexpected error", by simp only [asyncUpdateData, hc]⟩
      | typeError m =>
        exact ⟨"Unexpected error", by simp only [asyncUpdateData, hc]⟩
      | keyError k =>
        exact ⟨"Unexpected error", by simp only [asyncUpdateData, hc]⟩
      | attributeError m =>
        exact ⟨"Unexpected error", by simp only [asyncUpdateData, hc]⟩
      | jsonError =>
        exact ⟨"Unexpected error", by simp only [asyncUpdateData, hc]⟩

/-- Counterexample for C9: a per-service failure of an uncaught kind (the
HTTP error `raise_for_status()` raises inside `get_usage_data` for a 500
response) escapes the per-service handler and aborts the whole pass: the
update fails with the generic "Unexpected error" `UpdateFailed` — not the
zero-results message — even though the other two properties fetched
successfully, refuting "every per-service failure is caught and the pass
fails only with zero usable results". -/
theorem claim_c9_counterexample :
    caughtPerService (.httpStatusError 500) = false ∧
    c9FetchHttp "c2" = .error (.httpStatusError 500) ∧
    isOkB (c9FetchHttp "c1") = true ∧
    isOkB (c9FetchHttp "c3") = true ∧
    asyncUpdateData c9Properties ["p1", "p2", "p3"] ["electricity"] c9FetchHttp
      = .error "Unexpected error" ∧
    "Unexpected error" ≠ "No usage data retrieved for any configured services" :=
  ⟨rfl, rfl, rfl, rfl, rfl, by decide⟩

/-- Witness for C9 at the three-property scenarios: under caught-kind
failures the failed property is omitted, the two successful ones are
present, and the pass returns without raising; under the uncaught-kind
failure the pass aborts with an error. -/
theorem claim_c9_witness :
    asyncUpdateData c9Properties ["p1", "p2", "p3"] ["electricity"] c9Fetch
        = .ok [("p1", [("electricity", .dict [("consumer_number", .str "c1")])]),
               ("p3", [("electricity", .dict [("consumer_number", .str "c3")])])] ∧
    (List.lookup "p1"
        [("p1", ([("electricity", PyVal.dict [("consumer_number", .str "c1")])] : PyDict)),
         ("p3", [("electricity", .dict [("consumer_number", .str "c3")])])]).isSome
      = true ∧
    (List.lookup "p2"
        [("p1", ([("electricity", PyVal.dict [("consumer_number", .str "c1")])] : PyDict)),
         ("p3", [("electricity", .dict [("consumer_number", .str "c3")])])]).isSome
      = false ∧
    (List.lookup "p3"
        [("p1", ([("electricity", PyVal.dict [("consumer_number", .str "c1")])] : PyDict)),
         ("p3", [("electricity", .dict [("consumer_number", .str "c3")])])]).isSome
      = true ∧
    (∃ msg, asyncUpdateData c9Properties ["p1", "p2", "p3"] ["electricity"] c9FetchHttp
      = .error msg) := by
  have hcaught : ∀ p ∈ c9Properties, (["p1", "p2", "p3"] : List String).contains p.pid = true →
      ∀ s ∈ p.services, consideredService ["electricity"] s = true →
        ∀ e, c9Fetch s.consumer_number = .error e → caughtPerService e = true := by
    intro p hp _ s hs _ e hf
    simp only [c9Properties, List.mem_cons, List.not_mem_nil, or_false] at hp
    rcases hp with rfl | rfl | rfl <;>
      (simp only [List.mem_cons, List.not_mem_nil, or_false] at hs
       subst hs) <;>
      simp only [c9Fetch] at hf <;> (cases hf <;> rfl)
  have h := (claim_c9 c9Properties ["p1", "p2", "p3"] ["electricity"] c9Fetch).1 hcaught
  have h2 := (claim_c9 c9Properties ["p1", "p2", "p3"] ["electricity"] c9FetchHttp).2
    ⟨⟨"p2", [⟨"electricity", "c2", true⟩]⟩,
     List.mem_cons_of_mem _ (List.mem_cons_self _ _), rfl,
     ⟨"electricity", "c2", true⟩, List.mem_cons_self _ _, rfl,
     .httpStatusError 500, rfl, rfl⟩
  have hok : asyncUpdateData c9Properties ["p1", "p2", "p3"] ["electricity"] c9Fetch
      = .ok [("p1", [("electricity", .dict [("consumer_number", .str "c1")])]),
             ("p3", [("electricity", .dict [("consumer_number", .str "c3")])])] := rfl
  refine ⟨hok, ?_, ?_, ?_, h2⟩
  · exact (h.2.2.2 _ hok "p1").mpr (by decide)
  · cases hb : (List.lookup "p2"
        [("p1", ([("electricity", PyVal.dict [("consumer_number", .str "c1")])] : PyDict)),
         ("p3", [("electricity", .dict [("consumer_number", .str "c3")])])]).isSome with
    | false => rfl
    | true => exact absurd ((h.2.2.2 _ hok "p2").mp hb) (by decide)
  · exact (h.2.2.2 _ hok "p3").mpr (by decide)

end RedEnergy
